import Mathlib

set_option autoImplicit false

/-!
Shallow embedding of `projectify.py`, a project scaffolding generator:
a config resolver (`coerce_config`) turning an untyped parsed document into a
validated `ProjectConfig`, and a scaffold emitter (`generate_from_config`)
rendering a fixed catalog of text templates into a fresh directory tree.
-/

namespace Projectify

/-- The untyped value tree produced by the external YAML parser
(mappings, sequences, scalars).  Mappings are insertion-ordered
association lists, as Python dicts are. -/
inductive Value where
  | vstr (s : String)
  | vint (n : Int)
  | vbool (b : Bool)
  | vnone
  | vlist (xs : List Value)
  | vdict (xs : List (String × Value))

/-- `d[k]` lookup on a Python dict modelled as an association list
(keys are unique in a Python dict, so first match is the value). -/
def pyLookup (d : List (String × Value)) (k : String) : Option Value :=
  match d with
  | [] => none
  | (k', v) :: rest => if k' = k then some v else pyLookup rest k

mutual

/-- Python `repr` of a parsed value, as used by `str` on containers.
String escaping inside `repr` of nested strings is not modelled (no claim
depends on container stringification). -/
def pyRepr : Value → String
  | .vstr s => "'" ++ s ++ "'"
  | .vint n => toString n
  | .vbool b => if b then "True" else "False"
  | .vnone => "None"
  | .vlist xs => "[" ++ pyReprSeq xs ++ "]"
  | .vdict xs => "\x7b" ++ pyReprPairs xs ++ "\x7d"

/-- Comma-joined `repr`s of a sequence's elements. -/
def pyReprSeq : List Value → String
  | [] => ""
  | [x] => pyRepr x
  | x :: y :: rest => pyRepr x ++ ", " ++ pyReprSeq (y :: rest)

/-- Comma-joined `repr`s of a mapping's entries. -/
def pyReprPairs : List (String × Value) → String
  | [] => ""
  | [kv] => "'" ++ kv.1 ++ "': " ++ pyRepr kv.2
  | kv :: kv2 :: rest => "'" ++ kv.1 ++ "': " ++ pyRepr kv.2 ++ ", " ++ pyReprPairs (kv2 :: rest)

end

/-- Python `str()` applied to a parsed value: a string is returned verbatim,
`None` stringifies to `"None"`, booleans to `"True"`/`"False"`, numbers and
containers via `repr`-style printing.  `str()` never fails. -/
def pyStr : Value → String
  | .vstr s => s
  | v => pyRepr v

/-- `project_url.rstrip("/")`: strip every trailing `'/'` character. -/
def rstripSlashes (s : String) : String :=
  String.mk (s.data.reverse.dropWhile (fun c => c = '/')).reverse

/-- One validated author entry (`{"name": ..., "email": ...}`). -/
structure Author where
  name : String
  email : String
  deriving DecidableEq

/-- The validated project descriptor (`ProjectConfig` dataclass). -/
structure ProjectConfig where
  project_name : String
  description : String
  project_url : String
  authors : List Author
  dependencies : List String
  dependency_groups : List (String × List String)
  dev_extras : List String
  deriving DecidableEq

/-- `DEFAULT_DEPENDENCY_GROUPS`: built-in default dependency groups. -/
def DEFAULT_DEPENDENCY_GROUPS : List (String × List String) :=
  [("test", ["pytest >=7", "pytest-cov >=3", "coverage[toml]"]),
   ("docs",
    ["sphinx>=7", "furo", "myst-parser<5", "sphinx-design", "sphinx-togglebutton",
     "sphinx-copybutton", "sphinx-autodoc-typehints", "myst-nb", "sphinxcontrib-mermaid"]),
   ("examples", ["rich", "matplotlib>=3.10.7"])]

/-- `DEV_BASELINE`: the fixed baseline developer toolset. -/
def DEV_BASELINE : List String := ["ipython", "ruff", "pre_commit", "mypy"]

/-- `ConfigError` instances raised by `coerce_config`, one constructor per
raise site. -/
inductive ConfigErr where
  | missingProjectName
  | missingDescription
  | missingProjectUrl
  | missingAuthors
  | authorsNotList
  | authorsEmpty
  | authorEntryNotMapping
  | authorEntryMissingField
  | missingDependencies
  | dependenciesNotList
  | missingDependencyGroups
  | groupsNotMapping
  | groupNotList (group_name : String)
  | missingDevExtras
  | devExtrasNotList
  deriving DecidableEq

/-- The human-readable message carried by each `ConfigError`. -/
def errMessage : ConfigErr → String
  | .missingProjectName => "Missing 'project_name' in configuration"
  | .missingDescription => "Missing 'description' in configuration"
  | .missingProjectUrl => "Missing 'project_url' in configuration"
  | .missingAuthors => "Missing 'authors' in configuration"
  | .authorsNotList => "'authors' must be a list"
  | .authorsEmpty => "'authors' must contain at least one entry"
  | .authorEntryNotMapping => "Each author entry must be a mapping with name/email"
  | .authorEntryMissingField => "Author entries require 'name' and 'email'"
  | .missingDependencies => "Missing 'dependencies' in configuration"
  | .dependenciesNotList => "'dependencies' must be a list"
  | .missingDependencyGroups => "Missing 'dependency_groups' in configuration"
  | .groupsNotMapping => "'dependency_groups' must be a mapping"
  | .groupNotList g => "Dependency group '" ++ g ++ "' must be a list"
  | .missingDevExtras => "Missing 'dev_extras' in configuration"
  | .devExtrasNotList => "'dev_extras' must be a list"

/-- `d[k] = v` on a Python dict modelled as an association list: replace the
value in place when the key is present, else append the new entry last. -/
def dictUpdate {α : Type} (d : List (String × α)) (k : String) (v : α) :
    List (String × α) :=
  match d with
  | [] => [(k, v)]
  | (k', v') :: rest =>
    if k' = k then (k', v) :: rest else (k', v') :: dictUpdate rest k v

/-- Validation of one entry of `authors` (`coerce_config` lines 91-99):
the entry must be a mapping carrying both `name` and `email`. -/
def coerceAuthor (entry : Value) : Except ConfigErr Author :=
  match entry with
  | .vdict d =>
    match pyLookup d "name" with
    | none => .error .authorEntryMissingField
    | some n =>
      match pyLookup d "email" with
      | none => .error .authorEntryMissingField
      | some e => .ok ⟨pyStr n, pyStr e⟩
  | _ => .error .authorEntryNotMapping

/-- The `for entry in authors_raw` loop of `coerce_config`: validate entries
left to right, aborting at the first bad one. -/
def coerceAuthors : List Value → Except ConfigErr (List Author)
  | [] => .ok []
  | x :: xs =>
    match coerceAuthor x with
    | .error e => .error e
    | .ok a =>
      match coerceAuthors xs with
      | .error e => .error e
      | .ok rest => .ok (a :: rest)

/-- The `for group_name, deps in groups_raw.items()` loop of `coerce_config`:
each supplied value must be a sequence, and it replaces that group's contents
wholesale in the accumulator (which starts as a copy of the defaults). -/
def resolveGroups (acc : List (String × List String)) :
    List (String × Value) → Except ConfigErr (List (String × List String))
  | [] => .ok acc
  | (group_name, deps) :: rest =>
    match deps with
    | .vlist ds => resolveGroups (dictUpdate acc group_name (ds.map pyStr)) rest
    | _ => .error (.groupNotList group_name)

/-- `coerce_config`: resolve a raw parsed mapping into a validated
`ProjectConfig`, checking fields in the source's order and failing with the
corresponding `ConfigError` at the first offence. -/
def coerce_config (raw : List (String × Value)) : Except ConfigErr ProjectConfig :=
  match pyLookup raw "project_name" with
  | none => .error .missingProjectName
  | some pn =>
    match pyLookup raw "description" with
    | none => .error .missingDescription
    | some desc =>
      match pyLookup raw "project_url" with
      | none => .error .missingProjectUrl
      | some url =>
        match pyLookup raw "authors" with
        | none => .error .missingAuthors
        | some authorsRaw =>
          match authorsRaw with
          | .vlist authorsList =>
            if authorsList.isEmpty then .error .authorsEmpty
            else
              match coerceAuthors authorsList with
              | .error e => .error e
              | .ok authors =>
                match pyLookup raw "dependencies" with
                | none => .error .missingDependencies
                | some dependenciesRaw =>
                  match dependenciesRaw with
                  | .vlist deps =>
                    match pyLookup raw "dependency_groups" with
                    | none => .error .missingDependencyGroups
                    | some groupsRaw =>
                      match groupsRaw with
                      | .vdict groups =>
                        match resolveGroups DEFAULT_DEPENDENCY_GROUPS groups with
                        | .error e => .error e
                        | .ok dependency_groups =>
                          match pyLookup raw "dev_extras" with
                          | none => .error .missingDevExtras
                          | some devExtrasRaw =>
                            match devExtrasRaw with
                            | .vlist extras =>
                              .ok
                                { project_name := pyStr pn
                                  description := pyStr desc
                                  project_url := rstripSlashes (pyStr url)
                                  authors := authors
                                  dependencies := deps.map pyStr
                                  dependency_groups := dependency_groups
                                  dev_extras := extras.map pyStr }
                            | _ => .error .devExtrasNotList
                      | _ => .error .groupsNotMapping
                  | _ => .error .dependenciesNotList
          | _ => .error .authorsNotList

/-- `format_string_array`: render a list of strings as indented quoted TOML
array entries, one per line, or an indented placeholder comment when empty. -/
def format_string_array (values : List String) (indent : Nat) : String :=
  if values.isEmpty then String.mk (List.replicate indent ' ') ++ "# Add entries here"
  else
    String.intercalate "\n"
      (values.map fun value => String.mk (List.replicate indent ' ') ++ "\"" ++ value ++ "\",")

/-- `format_dependency_groups`: render every group except `dev` as its own
list block (a loop appending to `output_lines`), then append a synthesized
`dev` group of include-group references to the other groups, the baseline
toolset and the extra dev dependencies.  All call sites use the default
indent 4 of `format_string_array`. -/
def format_dependency_groups (groups : List (String × List String))
    (extra_dev : List String) : String :=
  let output_lines : List String :=
    groups.foldl
      (fun acc g =>
        if g.1 = "dev" then acc
        else acc ++ [g.1 ++ " = [", format_string_array g.2 4, "]\n"])
      []
  let include_groups := (groups.map Prod.fst).filter (fun name => name ≠ "dev")
  let output_lines := output_lines ++ ["dev = ["]
  let output_lines :=
    output_lines ++
      include_groups.map (fun group => "    \x7b include-group = \"" ++ group ++ "\" \x7d,")
  let output_lines :=
    output_lines ++ (DEV_BASELINE ++ extra_dev).map (fun dep => "    \"" ++ dep ++ "\",")
  let output_lines := output_lines ++ ["]"]
  String.intercalate "\n" output_lines

/-- Spec wording: the list blocks for every group except `dev`, one block
(header line, entries, closing line) per group, in encounter order. -/
def spec_group_blocks (groups : List (String × List String)) : List String :=
  ((groups.filter fun g => g.1 ≠ "dev").map
    fun g => [g.1 ++ " = [", format_string_array g.2 4, "]\n"]).flatten

/-- Spec wording: the synthesized `dev` group's lines — one include-group
reference per other group name in encounter order, then the baseline
developer toolset, then each entry of `dev_extras`. -/
def spec_dev_group_lines (groups : List (String × List String))
    (extra_dev : List String) : List String :=
  ["dev = ["] ++
    ((groups.map Prod.fst).filter fun name => name ≠ "dev").map
      (fun group => "    \x7b include-group = \"" ++ group ++ "\" \x7d,") ++
    (DEV_BASELINE ++ extra_dev).map (fun dep => "    \"" ++ dep ++ "\",") ++
    ["]"]

theorem foldl_group_blocks (groups : List (String × List String)) (init : List String) :
    groups.foldl
      (fun acc g =>
        if g.1 = "dev" then acc
        else acc ++ [g.1 ++ " = [", format_string_array g.2 4, "]\n"])
      init = init ++ spec_group_blocks groups := by
  induction groups generalizing init with
  | nil => simp [spec_group_blocks]
  | cons g gs ih =>
    by_cases h : g.1 = "dev" <;>
      simp [spec_group_blocks, List.filter_cons, h, ih]

theorem format_dependency_groups_eq (groups : List (String × List String))
    (extra_dev : List String) :
    format_dependency_groups groups extra_dev =
      String.intercalate "\n" (spec_group_blocks groups ++ spec_dev_group_lines groups extra_dev) := by
  simp [format_dependency_groups, foldl_group_blocks, spec_dev_group_lines]

/-- C1: For every validated descriptor, the rendered dependency-groups block
renders every group except 'dev' as its own list block, and appends a
synthesized 'dev' group last whose entries are, in order: one include-group
reference for every other group name in encounter order, then each entry of
the fixed baseline developer toolset (ipython, ruff, pre_commit, mypy), then
each entry of dev_extras. -/
theorem c1_dependency_groups_block (groups : List (String × List String))
    (extra_dev : List String) :
    format_dependency_groups groups extra_dev =
      String.intercalate "\n"
        (spec_group_blocks groups ++
          (["dev = ["] ++
            ((groups.map Prod.fst).filter fun name => name ≠ "dev").map
              (fun group => "    \x7b include-group = \"" ++ group ++ "\" \x7d,") ++
            (DEV_BASELINE ++ extra_dev).map (fun dep => "    \"" ++ dep ++ "\",") ++
            ["]"])) :=
  format_dependency_groups_eq groups extra_dev

/-- C9: For every descriptor whose resolved dependency_groups mapping contains
a caller-supplied key named 'dev', the contents of that group never appear in
the rendered dependency-groups block: rendering is invariant under deleting
every 'dev' entry from the mapping — no list block is rendered for it, it is
excluded from the synthesized dev group's include-group references, and the
synthesized dev group (baseline toolset plus dev_extras) is emitted in its
place. -/
theorem c9_caller_dev_group_ignored (groups : List (String × List String))
    (extra_dev : List String) :
    format_dependency_groups groups extra_dev =
      format_dependency_groups (groups.filter fun g => g.1 ≠ "dev") extra_dev := by
  rw [format_dependency_groups_eq, format_dependency_groups_eq]
  have h0 : ((groups.filter fun g => g.1 ≠ "dev").map Prod.fst).filter
        (fun name => name ≠ "dev")
      = (groups.map Prod.fst).filter (fun name => name ≠ "dev") := by
    induction groups with
    | nil => rfl
    | cons g gs ih =>
      simp only [ne_eq, decide_not] at ih ⊢
      by_cases h : g.1 = "dev" <;> simp [List.filter_cons, h, ih]
  have h1 : spec_group_blocks (groups.filter fun g => g.1 ≠ "dev") =
      spec_group_blocks groups := by
    simp [spec_group_blocks, List.filter_filter]
  have h2 : spec_dev_group_lines (groups.filter fun g => g.1 ≠ "dev") extra_dev =
      spec_dev_group_lines groups extra_dev := by
    simp only [ne_eq, decide_not] at h0
    simp [spec_dev_group_lines, h0]
  rw [h1, h2]

theorem lookup_dictUpdate_self {α : Type} (d : List (String × α)) (k : String) (v : α) :
    (dictUpdate d k v).lookup k = some v := by
  induction d with
  | nil => simp [dictUpdate, List.lookup]
  | cons p rest ih =>
    obtain ⟨k', v'⟩ := p
    by_cases h : k' = k
    · subst h; simp [dictUpdate, List.lookup]
    · have hb : (k == k') = false := beq_eq_false_iff_ne.mpr (Ne.symm h)
      simp [dictUpdate, h, List.lookup, hb, ih]

theorem lookup_dictUpdate_ne {α : Type} (d : List (String × α)) (k k' : String) (v : α)
    (h : k' ≠ k) : (dictUpdate d k v).lookup k' = d.lookup k' := by
  have hb : (k' == k) = false := beq_eq_false_iff_ne.mpr h
  induction d with
  | nil => simp [dictUpdate, List.lookup, hb]
  | cons p rest ih =>
    obtain ⟨k₀, v₀⟩ := p
    by_cases h0 : k₀ = k
    · subst h0; simp [dictUpdate, List.lookup, hb]
    · simp only [dictUpdate, if_neg h0, List.lookup]
      cases hk : k' == k₀ <;> simp [hk, ih]

theorem mem_keys_dictUpdate {α : Type} (d : List (String × α)) (k k' : String) (v : α)
    (h : k' ∈ d.map Prod.fst) : k' ∈ (dictUpdate d k v).map Prod.fst := by
  induction d with
  | nil => simp at h
  | cons p rest ih =>
    obtain ⟨k₀, v₀⟩ := p
    by_cases h0 : k₀ = k
    · subst h0
      simpa [dictUpdate] using h
    · simp only [dictUpdate, if_neg h0, List.map_cons, List.mem_cons] at h ⊢
      rcases h with h | h
      · exact Or.inl h
      · exact Or.inr (ih h)

theorem resolveGroups_keys_mono : ∀ (gs : List (String × Value))
    (acc d : List (String × List String)) (k : String),
    resolveGroups acc gs = .ok d → k ∈ acc.map Prod.fst → k ∈ d.map Prod.fst
  | [], acc, d, k => by
    intro hok hk
    simp only [resolveGroups] at hok
    cases hok
    exact hk
  | (name, v) :: rest, acc, d, k => by
    intro hok hk
    cases v <;> simp only [resolveGroups] at hok <;> try exact Except.noConfusion hok
    exact resolveGroups_keys_mono rest _ _ _ hok (mem_keys_dictUpdate _ _ _ _ hk)

theorem resolveGroups_lookup_untouched : ∀ (gs : List (String × Value))
    (acc d : List (String × List String)) (k : String),
    resolveGroups acc gs = .ok d → k ∉ gs.map Prod.fst → d.lookup k = acc.lookup k
  | [], acc, d, k => by
    intro hok _
    simp only [resolveGroups] at hok
    cases hok
    rfl
  | (name, v) :: rest, acc, d, k => by
    intro hok hk
    simp only [List.map_cons, List.mem_cons, not_or] at hk
    cases v <;> simp only [resolveGroups] at hok <;> try exact Except.noConfusion hok
    rw [resolveGroups_lookup_untouched rest _ _ _ hok hk.2,
      lookup_dictUpdate_ne _ _ _ _ (fun he => hk.1 he)]

theorem resolveGroups_lookup_supplied : ∀ (gs : List (String × Value))
    (acc d : List (String × List String)) (k : String) (v : List Value),
    (gs.map Prod.fst).Nodup → pyLookup gs k = some (.vlist v) →
    resolveGroups acc gs = .ok d → d.lookup k = some (v.map pyStr)
  | [], acc, d, k, v => by
    intro _ hfind _
    simp [pyLookup] at hfind
  | (name, w) :: rest, acc, d, k, v => by
    intro hnodup hfind hok
    simp only [List.map_cons, List.nodup_cons] at hnodup
    by_cases h : name = k
    · subst h
      simp only [pyLookup, if_pos rfl] at hfind
      cases hfind
      simp only [resolveGroups] at hok
      rw [resolveGroups_lookup_untouched rest _ _ _ hok hnodup.1]
      exact lookup_dictUpdate_self _ _ _
    · simp only [pyLookup, if_neg h] at hfind
      cases w <;> simp only [resolveGroups] at hok <;> try exact Except.noConfusion hok
      exact resolveGroups_lookup_supplied rest _ _ _ _ hnodup.2 hfind hok

/-- Inversion of a successful `coerce_config` run: every field check passed
and the resulting descriptor is assembled exactly from the looked-up values. -/
theorem coerce_config_ok_elim (raw : List (String × Value)) (cfg : ProjectConfig)
    (h : coerce_config raw = .ok cfg) :
    ∃ pn desc url authorsList authors deps groups dgroups extras,
      pyLookup raw "project_name" = some pn ∧
      pyLookup raw "description" = some desc ∧
      pyLookup raw "project_url" = some url ∧
      pyLookup raw "authors" = some (.vlist authorsList) ∧
      authorsList.isEmpty = false ∧
      coerceAuthors authorsList = .ok authors ∧
      pyLookup raw "dependencies" = some (.vlist deps) ∧
      pyLookup raw "dependency_groups" = some (.vdict groups) ∧
      resolveGroups DEFAULT_DEPENDENCY_GROUPS groups = .ok dgroups ∧
      pyLookup raw "dev_extras" = some (.vlist extras) ∧
      cfg = { project_name := pyStr pn
              description := pyStr desc
              project_url := rstripSlashes (pyStr url)
              authors := authors
              dependencies := deps.map pyStr
              dependency_groups := dgroups
              dev_extras := extras.map pyStr } := by
  unfold coerce_config at h
  cases hpn : pyLookup raw "project_name" with
  | none => simp only [hpn] at h; exact Except.noConfusion h
  | some pn =>
  simp only [hpn] at h
  cases hdesc : pyLookup raw "description" with
  | none => simp only [hdesc] at h; exact Except.noConfusion h
  | some desc =>
  simp only [hdesc] at h
  cases hurl : pyLookup raw "project_url" with
  | none => simp only [hurl] at h; exact Except.noConfusion h
  | some url =>
  simp only [hurl] at h
  cases hauth : pyLookup raw "authors" with
  | none => simp only [hauth] at h; exact Except.noConfusion h
  | some authorsRaw =>
  simp only [hauth] at h
  cases authorsRaw <;> try exact Except.noConfusion h
  case vlist authorsList =>
  dsimp only at h
  cases hempty : authorsList.isEmpty with
  | true =>
    rw [if_pos hempty] at h
    exact Except.noConfusion h
  | false =>
  rw [if_neg (by simp [hempty])] at h
  cases hca : coerceAuthors authorsList with
  | error e => simp only [hca] at h; exact Except.noConfusion h
  | ok authors =>
  simp only [hca] at h
  cases hdeps : pyLookup raw "dependencies" with
  | none => simp only [hdeps] at h; exact Except.noConfusion h
  | some depsRaw =>
  simp only [hdeps] at h
  cases depsRaw <;> try exact Except.noConfusion h
  case vlist deps =>
  dsimp only at h
  cases hgroups : pyLookup raw "dependency_groups" with
  | none => simp only [hgroups] at h; exact Except.noConfusion h
  | some groupsRaw =>
  simp only [hgroups] at h
  cases groupsRaw <;> try exact Except.noConfusion h
  case vdict groups =>
  dsimp only at h
  cases hres : resolveGroups DEFAULT_DEPENDENCY_GROUPS groups with
  | error e => simp only [hres] at h; exact Except.noConfusion h
  | ok dgroups =>
  simp only [hres] at h
  cases hextras : pyLookup raw "dev_extras" with
  | none => simp only [hextras] at h; exact Except.noConfusion h
  | some extrasRaw =>
  simp only [hextras] at h
  cases extrasRaw <;> try exact Except.noConfusion h
  case vlist extras =>
  dsimp only at h
  cases h
  exact ⟨pn, desc, url, authorsList, authors, deps, groups, dgroups, extras,
    rfl, rfl, rfl, rfl, hempty, hca, rfl, rfl, hres, rfl, rfl⟩

/-- C2: For every raw document whose dependency_groups value is a mapping,
resolution produces a dependency_groups mapping that starts from a copy of
the built-in defaults (test, docs, examples, each with its fixed literal
list) and, for each caller-supplied key whose value is a sequence, replaces
that group's contents wholesale (never merging), possibly adding new group
names; consequently the resolved mapping always contains at least the keys
test, docs, and examples. -/
theorem c2_dependency_groups_overlay (raw gs : List (String × Value))
    (cfg : ProjectConfig)
    (hgs : pyLookup raw "dependency_groups" = some (.vdict gs))
    (hnodup : (gs.map Prod.fst).Nodup)
    (hok : coerce_config raw = .ok cfg) :
    ("test" ∈ cfg.dependency_groups.map Prod.fst ∧
     "docs" ∈ cfg.dependency_groups.map Prod.fst ∧
     "examples" ∈ cfg.dependency_groups.map Prod.fst) ∧
    (∀ k v, pyLookup gs k = some (.vlist v) →
      cfg.dependency_groups.lookup k = some (v.map pyStr)) ∧
    (∀ k, k ∉ gs.map Prod.fst →
      cfg.dependency_groups.lookup k = DEFAULT_DEPENDENCY_GROUPS.lookup k) := by
  obtain ⟨pn, desc, url, al, authors, deps, groups, dgroups, extras,
    _, _, _, _, _, _, _, hgroups, hres, _, hcfg⟩ := coerce_config_ok_elim raw cfg hok
  rw [hgs] at hgroups
  cases hgroups
  subst hcfg
  refine ⟨⟨?_, ?_, ?_⟩, ?_, ?_⟩
  · exact resolveGroups_keys_mono _ _ _ _ hres (by simp [DEFAULT_DEPENDENCY_GROUPS])
  · exact resolveGroups_keys_mono _ _ _ _ hres (by simp [DEFAULT_DEPENDENCY_GROUPS])
  · exact resolveGroups_keys_mono _ _ _ _ hres (by simp [DEFAULT_DEPENDENCY_GROUPS])
  · intro k v hk
    exact resolveGroups_lookup_supplied _ _ _ _ _ hnodup hk hres
  · intro k hk
    exact resolveGroups_lookup_untouched _ _ _ _ hres hk

/-- A concrete raw document overriding the `test` group and adding a new
group `viz`. -/
def c2raw : List (String × Value) :=
  [("project_name", .vstr "p"), ("description", .vstr "d"),
   ("project_url", .vstr "https://example.org/p"),
   ("authors", .vlist [.vdict [("name", .vstr "Mo"), ("email", .vstr "mo@example.com")]]),
   ("dependencies", .vlist []),
   ("dependency_groups", .vdict [("test", .vlist [.vstr "pytest"]),
                                 ("viz", .vlist [.vstr "plotly"])]),
   ("dev_extras", .vlist [])]

/-- The descriptor `coerce_config` resolves `c2raw` to. -/
def c2cfg : ProjectConfig :=
  { project_name := "p"
    description := "d"
    project_url := "https://example.org/p"
    authors := [⟨"Mo", "mo@example.com"⟩]
    dependencies := []
    dependency_groups :=
      [("test", ["pytest"]),
       ("docs",
        ["sphinx>=7", "furo", "myst-parser<5", "sphinx-design", "sphinx-togglebutton",
         "sphinx-copybutton", "sphinx-autodoc-typehints", "myst-nb", "sphinxcontrib-mermaid"]),
       ("examples", ["rich", "matplotlib>=3.10.7"]),
       ("viz", ["plotly"])]
    dev_extras := [] }

/-- Concrete run of the dependency-group overlay: overriding `test` and
adding a new group `viz` keeps the defaults for `docs` and `examples`. -/
theorem c2_dependency_groups_overlay_witness :
    coerce_config c2raw = .ok c2cfg ∧
    "test" ∈ c2cfg.dependency_groups.map Prod.fst ∧
    "docs" ∈ c2cfg.dependency_groups.map Prod.fst ∧
    "examples" ∈ c2cfg.dependency_groups.map Prod.fst ∧
    c2cfg.dependency_groups.lookup "test" = some ["pytest"] ∧
    c2cfg.dependency_groups.lookup "viz" = some ["plotly"] ∧
    c2cfg.dependency_groups.lookup "docs" = DEFAULT_DEPENDENCY_GROUPS.lookup "docs" := by
  have hok : coerce_config c2raw = .ok c2cfg := by rfl
  have h := c2_dependency_groups_overlay c2raw
    [("test", .vlist [.vstr "pytest"]), ("viz", .vlist [.vstr "plotly"])]
    c2cfg (by rfl) (by decide) hok
  refine ⟨hok, h.1.1, h.1.2.1, h.1.2.2, ?_, ?_, ?_⟩
  · exact h.2.1 "test" [.vstr "pytest"] (by rfl)
  · exact h.2.1 "viz" [.vstr "plotly"] (by rfl)
  · exact h.2.2 "docs" (by decide)

/-- The seven configuration fields, in the fixed checking order of the
resolver. -/
inductive Field where
  | project_name
  | description
  | project_url
  | authors
  | dependencies
  | dependency_groups
  | dev_extras
  deriving DecidableEq

/-- Which configuration field each `ConfigError` identifies. -/
def errField : ConfigErr → Field
  | .missingProjectName => .project_name
  | .missingDescription => .description
  | .missingProjectUrl => .project_url
  | .missingAuthors | .authorsNotList | .authorsEmpty
  | .authorEntryNotMapping | .authorEntryMissingField => .authors
  | .missingDependencies | .dependenciesNotList => .dependencies
  | .missingDependencyGroups | .groupsNotMapping | .groupNotList _ => .dependency_groups
  | .missingDevExtras | .devExtrasNotList => .dev_extras

/-- Spec wording: an author entry is malformed when it is not a mapping or
lacks `name` or `email`. -/
def badAuthorEntry (v : Value) : Bool :=
  match v with
  | .vdict d => (pyLookup d "name").isNone || (pyLookup d "email").isNone
  | _ => true

/-- Spec wording: a supplied dependency-group entry is malformed when its
value is not a sequence. -/
def badGroupEntry (p : String × Value) : Bool :=
  match p.2 with
  | .vlist _ => false
  | _ => true

/-- Spec wording (section 4.1): when a field is missing or malformed.
Scalar fields only offend by absence (any present value is stringified);
`authors` must be a present non-empty sequence of well-formed entries;
`dependencies` and `dev_extras` must be present sequences;
`dependency_groups` must be a present mapping whose values are sequences. -/
def offends (raw : List (String × Value)) : Field → Bool
  | .project_name => (pyLookup raw "project_name").isNone
  | .description => (pyLookup raw "description").isNone
  | .project_url => (pyLookup raw "project_url").isNone
  | .authors =>
    match pyLookup raw "authors" with
    | some (.vlist xs) => xs.isEmpty || xs.any badAuthorEntry
    | _ => true
  | .dependencies =>
    match pyLookup raw "dependencies" with
    | some (.vlist _) => false
    | _ => true
  | .dependency_groups =>
    match pyLookup raw "dependency_groups" with
    | some (.vdict gs) => gs.any badGroupEntry
    | _ => true
  | .dev_extras =>
    match pyLookup raw "dev_extras" with
    | some (.vlist _) => false
    | _ => true

/-- The fixed checking order of the resolver. -/
def FIELD_ORDER : List Field :=
  [.project_name, .description, .project_url, .authors,
   .dependencies, .dependency_groups, .dev_extras]

/-- The first missing or malformed field in checking order, if any. -/
def firstOffending (raw : List (String × Value)) : Option Field :=
  FIELD_ORDER.find? (offends raw)

/-- The field identified by a resolution outcome (`none` on success). -/
def coerceField : Except ConfigErr ProjectConfig → Option Field
  | .error e => some (errField e)
  | .ok _ => none

theorem coerceAuthor_spec (x : Value) :
    (badAuthorEntry x = false ∧ ∃ a, coerceAuthor x = .ok a) ∨
    (badAuthorEntry x = true ∧ ∃ e, coerceAuthor x = .error e ∧ errField e = .authors) := by
  cases x with
  | vdict d =>
    cases hn : pyLookup d "name" with
    | none =>
      exact Or.inr ⟨by simp [badAuthorEntry, hn],
        ConfigErr.authorEntryMissingField, by simp [coerceAuthor, hn], rfl⟩
    | some n =>
      cases he : pyLookup d "email" with
      | none =>
        exact Or.inr ⟨by simp [badAuthorEntry, hn, he],
          ConfigErr.authorEntryMissingField, by simp [coerceAuthor, hn, he], rfl⟩
      | some e =>
        exact Or.inl ⟨by simp [badAuthorEntry, hn, he],
          ⟨pyStr n, pyStr e⟩, by simp [coerceAuthor, hn, he]⟩
  | vstr s => exact Or.inr ⟨rfl, ConfigErr.authorEntryNotMapping, rfl, rfl⟩
  | vint n => exact Or.inr ⟨rfl, ConfigErr.authorEntryNotMapping, rfl, rfl⟩
  | vbool b => exact Or.inr ⟨rfl, ConfigErr.authorEntryNotMapping, rfl, rfl⟩
  | vnone => exact Or.inr ⟨rfl, ConfigErr.authorEntryNotMapping, rfl, rfl⟩
  | vlist xs => exact Or.inr ⟨rfl, ConfigErr.authorEntryNotMapping, rfl, rfl⟩

theorem coerceAuthors_spec : ∀ xs : List Value,
    (xs.any badAuthorEntry = false ∧ ∃ l, coerceAuthors xs = .ok l) ∨
    (xs.any badAuthorEntry = true ∧ ∃ e, coerceAuthors xs = .error e ∧ errField e = .authors)
  | [] => Or.inl ⟨rfl, [], rfl⟩
  | x :: xs => by
    rcases coerceAuthor_spec x with ⟨hbx, a, hax⟩ | ⟨hbx, e, hex, hfx⟩
    · rcases coerceAuthors_spec xs with ⟨hbs, l, hls⟩ | ⟨hbs, e, hes, hfs⟩
      · exact Or.inl ⟨by simp [List.any_cons, hbx, hbs],
          a :: l, by simp [coerceAuthors, hax, hls]⟩
      · exact Or.inr ⟨by simp [List.any_cons, hbs],
          e, by simp [coerceAuthors, hax, hes], hfs⟩
    · exact Or.inr ⟨by simp [List.any_cons, hbx],
        e, by simp [coerceAuthors, hex], hfx⟩

theorem resolveGroups_spec : ∀ (gs : List (String × Value)) (acc : List (String × List String)),
    (gs.any badGroupEntry = false ∧ ∃ d, resolveGroups acc gs = .ok d) ∨
    (gs.any badGroupEntry = true ∧ ∃ e, resolveGroups acc gs = .error e ∧
      errField e = .dependency_groups)
  | [], acc => Or.inl ⟨rfl, acc, rfl⟩
  | (name, v) :: rest, acc => by
    cases v with
    | vlist ds =>
      rcases resolveGroups_spec rest (dictUpdate acc name (ds.map pyStr)) with
        ⟨hbs, d, hds⟩ | ⟨hbs, e, hes, hfs⟩
      · exact Or.inl ⟨by simp [List.any_cons, badGroupEntry, hbs],
          d, by simp [resolveGroups, hds]⟩
      · exact Or.inr ⟨by simp [List.any_cons, hbs],
          e, by simp [resolveGroups, hes], hfs⟩
    | vstr s =>
      exact Or.inr ⟨by simp [List.any_cons, badGroupEntry],
        ConfigErr.groupNotList name, rfl, rfl⟩
    | vint n =>
      exact Or.inr ⟨by simp [List.any_cons, badGroupEntry],
        ConfigErr.groupNotList name, rfl, rfl⟩
    | vbool b =>
      exact Or.inr ⟨by simp [List.any_cons, badGroupEntry],
        ConfigErr.groupNotList name, rfl, rfl⟩
    | vnone =>
      exact Or.inr ⟨by simp [List.any_cons, badGroupEntry],
        ConfigErr.groupNotList name, rfl, rfl⟩
    | vdict xs =>
      exact Or.inr ⟨by simp [List.any_cons, badGroupEntry],
        ConfigErr.groupNotList name, rfl, rfl⟩

theorem coerceField_eq_firstOffending (raw : List (String × Value)) :
    coerceField (coerce_config raw) = firstOffending raw := by
  cases hpn : pyLookup raw "project_name" with
  | none =>
    simp [coerce_config, coerceField, errField, firstOffending, FIELD_ORDER,
      List.find?, offends, hpn]
  | some pn =>
  cases hdesc : pyLookup raw "description" with
  | none =>
    simp [coerce_config, coerceField, errField, firstOffending, FIELD_ORDER,
      List.find?, offends, hpn, hdesc]
  | some desc =>
  cases hurl : pyLookup raw "project_url" with
  | none =>
    simp [coerce_config, coerceField, errField, firstOffending, FIELD_ORDER,
      List.find?, offends, hpn, hdesc, hurl]
  | some url =>
  cases hauth : pyLookup raw "authors" with
  | none =>
    simp [coerce_config, coerceField, errField, firstOffending, FIELD_ORDER,
      List.find?, offends, hpn, hdesc, hurl, hauth]
  | some authorsRaw =>
  cases authorsRaw with
  | vstr s =>
    simp [coerce_config, coerceField, errField, firstOffending, FIELD_ORDER,
      List.find?, offends, hpn, hdesc, hurl, hauth]
  | vint n =>
    simp [coerce_config, coerceField, errField, firstOffending, FIELD_ORDER,
      List.find?, offends, hpn, hdesc, hurl, hauth]
  | vbool b =>
    simp [coerce_config, coerceField, errField, firstOffending, FIELD_ORDER,
      List.find?, offends, hpn, hdesc, hurl, hauth]
  | vnone =>
    simp [coerce_config, coerceField, errField, firstOffending, FIELD_ORDER,
      List.find?, offends, hpn, hdesc, hurl, hauth]
  | vdict xs =>
    simp [coerce_config, coerceField, errField, firstOffending, FIELD_ORDER,
      List.find?, offends, hpn, hdesc, hurl, hauth]
  | vlist authorsList =>
  cases hempty : authorsList.isEmpty with
  | true =>
    simp [coerce_config, coerceField, errField, firstOffending, FIELD_ORDER,
      List.find?, offends, hpn, hdesc, hurl, hauth, hempty]
  | false =>
  rcases coerceAuthors_spec authorsList with ⟨hany, l, hca⟩ | ⟨hany, e, hca, hfe⟩
  case inr.intro.intro.intro =>
    simp [coerce_config, coerceField, firstOffending, FIELD_ORDER,
      List.find?, offends, hpn, hdesc, hurl, hauth, hempty, hany, hca, hfe]
  case inl.intro.intro =>
  cases hdeps : pyLookup raw "dependencies" with
  | none =>
    simp [coerce_config, coerceField, errField, firstOffending, FIELD_ORDER,
      List.find?, offends, hpn, hdesc, hurl, hauth, hempty, hany, hca, hdeps]
  | some depsRaw =>
  cases depsRaw with
  | vstr s =>
    simp [coerce_config, coerceField, errField, firstOffending, FIELD_ORDER,
      List.find?, offends, hpn, hdesc, hurl, hauth, hempty, hany, hca, hdeps]
  | vint n =>
    simp [coerce_config, coerceField, errField, firstOffending, FIELD_ORDER,
      List.find?, offends, hpn, hdesc, hurl, hauth, hempty, hany, hca, hdeps]
  | vbool b =>
    simp [coerce_config, coerceField, errField, firstOffending, FIELD_ORDER,
      List.find?, offends, hpn, hdesc, hurl, hauth, hempty, hany, hca, hdeps]
  | vnone =>
    simp [coerce_config, coerceField, errField, firstOffending, FIELD_ORDER,
      List.find?, offends, hpn, hdesc, hurl, hauth, hempty, hany, hca, hdeps]
  | vdict xs =>
    simp [coerce_config, coerceField, errField, firstOffending, FIELD_ORDER,
      List.find?, offends, hpn, hdesc, hurl, hauth, hempty, hany, hca, hdeps]
  | vlist deps =>
  cases hgroups : pyLookup raw "dependency_groups" with
  | none =>
    simp [coerce_config, coerceField, errField, firstOffending, FIELD_ORDER,
      List.find?, offends, hpn, hdesc, hurl, hauth, hempty, hany, hca, hdeps, hgroups]
  | some groupsRaw =>
  cases groupsRaw with
  | vstr s =>
    simp [coerce_config, coerceField, errField, firstOffending, FIELD_ORDER,
      List.find?, offends, hpn, hdesc, hurl, hauth, hempty, hany, hca, hdeps, hgroups]
  | vint n =>
    simp [coerce_config, coerceField, errField, firstOffending, FIELD_ORDER,
      List.find?, offends, hpn, hdesc, hurl, hauth, hempty, hany, hca, hdeps, hgroups]
  | vbool b =>
    simp [coerce_config, coerceField, errField, firstOffending, FIELD_ORDER,
      List.find?, offends, hpn, hdesc, hurl, hauth, hempty, hany, hca, hdeps, hgroups]
  | vnone =>
    simp [coerce_config, coerceField, errField, firstOffending, FIELD_ORDER,
      List.find?, offends, hpn, hdesc, hurl, hauth, hempty, hany, hca, hdeps, hgroups]
  | vlist xs =>
    simp [coerce_config, coerceField, errField, firstOffending, FIELD_ORDER,
      List.find?, offends, hpn, hdesc, hurl, hauth, hempty, hany, hca, hdeps, hgroups]
  | vdict groups =>
  rcases resolveGroups_spec groups DEFAULT_DEPENDENCY_GROUPS with
    ⟨hgany, d, hres⟩ | ⟨hgany, e, hres, hfe⟩
  case inr.intro.intro.intro =>
    simp [coerce_config, coerceField, firstOffending, FIELD_ORDER,
      List.find?, offends, hpn, hdesc, hurl, hauth, hempty, hany, hca, hdeps,
      hgroups, hgany, hres, hfe]
  case inl.intro.intro =>
  cases hextras : pyLookup raw "dev_extras" with
  | none =>
    simp [coerce_config, coerceField, errField, firstOffending, FIELD_ORDER,
      List.find?, offends, hpn, hdesc, hurl, hauth, hempty, hany, hca, hdeps,
      hgroups, hgany, hres, hextras]
  | some extrasRaw =>
  cases extrasRaw <;>
    simp [coerce_config, coerceField, errField, firstOffending, FIELD_ORDER,
      List.find?, offends, hpn, hdesc, hurl, hauth, hempty, hany, hca, hdeps,
      hgroups, hgany, hres, hextras]

/-- C4: For every raw mapping with one or more missing or malformed fields,
resolution fails with a ConfigError identifying the first offending field in
the fixed checking order project_name, description, project_url, authors,
dependencies, dependency_groups, dev_extras (e.g., when both project_name
and authors are missing, the error names project_name), and no descriptor is
produced.  Stated as an exact characterization: the field identified by the
resolution outcome is the first offending field (and resolution succeeds
exactly when no field offends). -/
theorem c4_first_offending_field (raw : List (String × Value)) :
    coerceField (coerce_config raw) = firstOffending raw :=
  coerceField_eq_firstOffending raw

/-- C10: For every raw mapping in which a required scalar key (project_name,
description, or project_url) is present but bound to a null value, resolution
does not fail: the value is coerced by direct stringification (null becomes
the string 'None'), so the 'Missing <key> in configuration' error is raised
only when the key is entirely absent, not when its value is null or of an
unexpected scalar type. -/
theorem c10_null_scalar_values (raw : List (String × Value)) :
    (pyLookup raw "project_name" ≠ none → coerce_config raw ≠ .error .missingProjectName) ∧
    (pyLookup raw "description" ≠ none → coerce_config raw ≠ .error .missingDescription) ∧
    (pyLookup raw "project_url" ≠ none → coerce_config raw ≠ .error .missingProjectUrl) ∧
    (∀ cfg, coerce_config raw = .ok cfg →
      (pyLookup raw "project_name" = some .vnone → cfg.project_name = "None") ∧
      (pyLookup raw "description" = some .vnone → cfg.description = "None") ∧
      (pyLookup raw "project_url" = some .vnone → cfg.project_url = "None")) := by
  have hchar := coerceField_eq_firstOffending raw
  refine ⟨?_, ?_, ?_, ?_⟩
  · intro hp hc
    rw [hc] at hchar
    have hf := (List.find?_some hchar.symm)
    simp [offends, coerceField, errField, Option.isNone] at hf
    cases hlook : pyLookup raw "project_name" with
    | none => exact hp hlook
    | some v => rw [hlook] at hf; exact Bool.noConfusion hf
  · intro hp hc
    rw [hc] at hchar
    have hf := (List.find?_some hchar.symm)
    simp [offends, coerceField, errField, Option.isNone] at hf
    cases hlook : pyLookup raw "description" with
    | none => exact hp hlook
    | some v => rw [hlook] at hf; exact Bool.noConfusion hf
  · intro hp hc
    rw [hc] at hchar
    have hf := (List.find?_some hchar.symm)
    simp [offends, coerceField, errField, Option.isNone] at hf
    cases hlook : pyLookup raw "project_url" with
    | none => exact hp hlook
    | some v => rw [hlook] at hf; exact Bool.noConfusion hf
  · intro cfg hok
    obtain ⟨pn, desc, url, al, authors, deps, groups, dgroups, extras,
      hpn, hdesc, hurl, _, _, _, _, _, _, _, hcfg⟩ := coerce_config_ok_elim raw cfg hok
    subst hcfg
    refine ⟨?_, ?_, ?_⟩
    · intro hh; rw [hpn] at hh; cases hh; rfl
    · intro hh; rw [hdesc] at hh; cases hh; rfl
    · intro hh; rw [hurl] at hh; cases hh; rfl

/-- A concrete raw document whose three scalar keys are present but null. -/
def c10raw : List (String × Value) :=
  [("project_name", .vnone), ("description", .vnone), ("project_url", .vnone),
   ("authors", .vlist [.vdict [("name", .vstr "Mo"), ("email", .vstr "mo@example.com")]]),
   ("dependencies", .vlist []),
   ("dependency_groups", .vdict []),
   ("dev_extras", .vlist [])]

/-- The descriptor `coerce_config` resolves `c10raw` to: every null scalar is
stringified to "None". -/
def c10cfg : ProjectConfig :=
  { project_name := "None"
    description := "None"
    project_url := "None"
    authors := [⟨"Mo", "mo@example.com"⟩]
    dependencies := []
    dependency_groups := DEFAULT_DEPENDENCY_GROUPS
    dev_extras := [] }

/-- Concrete run: null scalar values do not trigger the missing-key errors
and stringify to "None". -/
theorem c10_null_scalar_values_witness :
    coerce_config c10raw = .ok c10cfg ∧
    coerce_config c10raw ≠ .error .missingProjectName ∧
    c10cfg.project_name = "None" ∧
    c10cfg.description = "None" ∧
    c10cfg.project_url = "None" := by
  have h := c10_null_scalar_values c10raw
  have hok : coerce_config c10raw = .ok c10cfg := by rfl
  have hvals := h.2.2.2 c10cfg hok
  exact ⟨hok, h.1 (by simp [c10raw, pyLookup]),
    hvals.1 (by rfl), hvals.2.1 (by rfl), hvals.2.2 (by rfl)⟩

/-- First pass of `escape_toml_string`: `value.replace("\\", "\\\\")`.
Python `str.replace` with a single-character pattern substitutes each
occurrence independently, i.e. character-wise. -/
def escBackslash (l : List Char) : List Char :=
  (l.map fun c => if c = '\\' then ['\\', '\\'] else [c]).flatten

/-- Second pass of `escape_toml_string`: `.replace('"', '\\"')`. -/
def escQuote (l : List Char) : List Char :=
  (l.map fun c => if c = '"' then ['\\', '"'] else [c]).flatten

/-- `escape_toml_string`: escape backslashes, then double quotes, for
interpolation into a quoted TOML field. -/
def escape_toml_string (value : String) : String :=
  String.mk (escQuote (escBackslash value.data))

/-- Single-pass encoding of one character under the TOML escaping. -/
def tomlEscapeChar (c : Char) : List Char :=
  if c = '\\' then ['\\', '\\'] else if c = '"' then ['\\', '"'] else [c]

/-- Spec-level decoder for the escaping: a backslash makes the following
character literal. -/
def toml_unescape_aux : List Char → List Char
  | [] => []
  | ['\\'] => ['\\']
  | '\\' :: d :: rest => d :: toml_unescape_aux rest
  | c :: rest => c :: toml_unescape_aux rest

/-- Decoder of a TOML-escaped string back to the interpolated value. -/
def toml_unescape (s : String) : String :=
  String.mk (toml_unescape_aux s.data)

theorem stringMkData (s : String) : String.mk s.data = s := by
  cases s
  rfl

theorem escQuote_escBackslash (l : List Char) :
    escQuote (escBackslash l) = (l.map tomlEscapeChar).flatten := by
  induction l with
  | nil => rfl
  | cons c rest ih =>
    simp only [escBackslash, escQuote, List.map_cons, List.flatten_cons] at ih ⊢
    by_cases h1 : c = '\\'
    · subst h1
      simp only [if_pos rfl, tomlEscapeChar]
      simp only [List.map_append, List.flatten_append] at ih ⊢
      simp_all [escBackslash, escQuote]
    · by_cases h2 : c = '"'
      · subst h2
        simp only [tomlEscapeChar, if_neg h1, if_pos rfl]
        simp_all [escBackslash, escQuote]
      · simp only [tomlEscapeChar, if_neg h1, if_neg h2]
        simp_all [escBackslash, escQuote]

theorem toml_unescape_aux_encoded (l : List Char) :
    toml_unescape_aux ((l.map tomlEscapeChar).flatten) = l := by
  induction l with
  | nil => rfl
  | cons c rest ih =>
    simp only [List.map_cons, List.flatten_cons]
    by_cases h1 : c = '\\'
    · subst h1
      simp only [tomlEscapeChar, if_pos rfl]
      simpa [toml_unescape_aux] using ih
    · by_cases h2 : c = '"'
      · subst h2
        simp only [tomlEscapeChar, if_pos rfl, if_neg h1]
        simpa [toml_unescape_aux] using ih
      · simp only [tomlEscapeChar, if_neg h1, if_neg h2, List.singleton_append]
        rw [toml_unescape_aux.eq_def]
        cases hmap : (rest.map tomlEscapeChar).flatten with
        | nil => simp_all [toml_unescape_aux, h1]
        | cons d ds => simp_all [h1]

/-- Decoding inverts the TOML escaping: the escaped text denotes exactly the
original string. -/
theorem toml_unescape_escape (s : String) :
    toml_unescape (escape_toml_string s) = s := by
  unfold toml_unescape escape_toml_string
  rw [show (String.mk (escQuote (escBackslash s.data))).data
      = escQuote (escBackslash s.data) from rfl,
    escQuote_escBackslash, toml_unescape_aux_encoded, stringMkData]

/-- The `homepage` value interpolated into the manifest (`build_pyproject`). -/
def homepage (config : ProjectConfig) : String :=
  escape_toml_string config.project_url

/-- The `issues_url` value interpolated into the manifest (`build_pyproject`). -/
def issues_url (config : ProjectConfig) : String :=
  escape_toml_string (config.project_url ++ "/issues")

/-- The `discussions_url` value interpolated into the manifest. -/
def discussions_url (config : ProjectConfig) : String :=
  escape_toml_string (config.project_url ++ "/discussions")

/-- The `releases_url` value interpolated into the manifest. -/
def releases_url (config : ProjectConfig) : String :=
  escape_toml_string (config.project_url ++ "/releases")

theorem head_dropWhile_not {α : Type} (p : α → Bool) (l : List α) :
    ∀ a, (l.dropWhile p).head? = some a → p a = false := by
  induction l with
  | nil => intro a h; simp [List.dropWhile] at h
  | cons c rest ih =>
    intro a h
    by_cases hc : p c
    · rw [List.dropWhile_cons_of_pos hc] at h
      exact ih a h
    · rw [List.dropWhile_cons_of_neg hc] at h
      simp only [List.head?_cons, Option.some_inj] at h
      subst h
      exact Bool.of_not_eq_true hc

/-- C5: For every raw document where project_url ends in one or more '/'
characters, the resolved descriptor's project_url has all trailing slashes
stripped, and the manifest's derived URLs are exactly the stripped base
string-appended with the fixed suffixes '/issues', '/discussions', and
'/releases' (the TOML escaping applied at interpolation decodes back to
exactly those strings). -/
theorem c5_project_url_trailing_slashes (raw : List (String × Value)) (s : String)
    (cfg : ProjectConfig)
    (hurl : pyLookup raw "project_url" = some (.vstr s))
    (hslash : s.data.getLast? = some '/')
    (hok : coerce_config raw = .ok cfg) :
    cfg.project_url = rstripSlashes s ∧
    cfg.project_url.data.getLast? ≠ some '/' ∧
    (∃ n, 0 < n ∧ s.data = cfg.project_url.data ++ List.replicate n '/') ∧
    toml_unescape (homepage cfg) = cfg.project_url ∧
    toml_unescape (issues_url cfg) = cfg.project_url ++ "/issues" ∧
    toml_unescape (discussions_url cfg) = cfg.project_url ++ "/discussions" ∧
    toml_unescape (releases_url cfg) = cfg.project_url ++ "/releases" := by
  obtain ⟨pn, desc, url, al, authors, deps, groups, dgroups, extras,
    _, _, hurl2, _, _, _, _, _, _, _, hcfg⟩ := coerce_config_ok_elim raw cfg hok
  rw [hurl] at hurl2
  cases hurl2
  have hproj : cfg.project_url = rstripSlashes s := by subst hcfg; rfl
  refine ⟨hproj, ?_, ?_, ?_, ?_, ?_, ?_⟩
  · rw [hproj]
    intro hlast
    have hhead : ((s.data.reverse.dropWhile (fun c => c = '/')).head?) = some '/' := by
      rw [rstripSlashes] at hlast
      simpa [List.getLast?_reverse] using hlast
    have := head_dropWhile_not (fun c => c = '/') s.data.reverse '/' hhead
    simp at this
  · refine ⟨(s.data.reverse.takeWhile (fun c => c = '/')).length, ?_, ?_⟩
    · cases hs : s.data.reverse with
      | nil =>
        rw [show s.data = s.data.reverse.reverse from (List.reverse_reverse _).symm, hs] at hslash
        simp at hslash
      | cons c rest =>
        have hc : c = '/' := by
          rw [show s.data = s.data.reverse.reverse from (List.reverse_reverse _).symm, hs] at hslash
          simpa [List.getLast?_reverse] using hslash
        subst hc
        simp [List.takeWhile_cons, hs]
    · rw [hproj, rstripSlashes]
      have hsplit : s.data.reverse.takeWhile (fun c => c = '/') ++
          s.data.reverse.dropWhile (fun c => c = '/') = s.data.reverse :=
        List.takeWhile_append_dropWhile _ _
      have hrep : s.data.reverse.takeWhile (fun c => c = '/') =
          List.replicate (s.data.reverse.takeWhile (fun c => c = '/')).length '/' := by
        rw [List.eq_replicate_iff]
        exact ⟨rfl, fun b hb => by
          have := List.mem_takeWhile_imp hb
          simpa using this⟩
      calc s.data = s.data.reverse.reverse := (List.reverse_reverse _).symm
        _ = (s.data.reverse.takeWhile (fun c => c = '/') ++
              s.data.reverse.dropWhile (fun c => c = '/')).reverse := by rw [hsplit]
        _ = (s.data.reverse.dropWhile (fun c => c = '/')).reverse ++
              (s.data.reverse.takeWhile (fun c => c = '/')).reverse := by
                rw [List.reverse_append]
        _ = (String.mk (s.data.reverse.dropWhile (fun c => c = '/')).reverse).data ++
              List.replicate (s.data.reverse.takeWhile (fun c => c = '/')).length '/' := by
                rw [show ∀ l : List Char, (String.mk l).data = l from fun _ => rfl]
                congr 1
                rw [hrep]
                simp
  · exact toml_unescape_escape _
  · exact toml_unescape_escape _
  · exact toml_unescape_escape _
  · exact toml_unescape_escape _

/-- Python `str.replace` with a single-character pattern and single-character
replacement is character-wise substitution. -/
def pyReplaceChar (oldc newc : Char) (s : String) : String :=
  String.mk (s.data.map fun c => if c = oldc then newc else c)

/-- `normalize_package_name`: `project_name.replace("-", "_").replace(" ", "_")`. -/
def normalize_package_name (project_name : String) : String :=
  pyReplaceChar ' ' '_' (pyReplaceChar '-' '_' project_name)

/-- Spec wording for the package identifier: `project_name` with every `-`
and every space character replaced by `_`, in a single pass. -/
def spec_package_identifier (project_name : String) : String :=
  String.mk (project_name.data.map fun c => if c = '-' || c = ' ' then '_' else c)

/-- C7: For every project_name string, the derived package identifier is
project_name with every '-' and every space character replaced by '_';
in particular 'sample-project' maps to 'sample_project' and 'My Project'
maps to 'My_Project'. -/
theorem c7_normalize_package_name :
    (∀ s : String, normalize_package_name s = spec_package_identifier s) ∧
    normalize_package_name "sample-project" = "sample_project" ∧
    normalize_package_name "My Project" = "My_Project" := by
  refine ⟨fun s => ?_, by decide, by decide⟩
  simp only [normalize_package_name, pyReplaceChar, spec_package_identifier,
    List.map_map]
  congr 1
  apply List.map_congr_left
  intro c _
  by_cases h1 : c = '-' <;> by_cases h2 : c = ' ' <;>
    simp [h1, h2, Function.comp]


/-- A concrete raw document whose `project_url` ends in three slashes. -/
def c5raw : List (String × Value) :=
  [("project_name", .vstr "p"), ("description", .vstr "d"),
   ("project_url", .vstr "https://x.org/p///"),
   ("authors", .vlist [.vdict [("name", .vstr "Mo"), ("email", .vstr "mo@example.com")]]),
   ("dependencies", .vlist []),
   ("dependency_groups", .vdict []),
   ("dev_extras", .vlist [])]

/-- The descriptor `coerce_config` resolves `c5raw` to. -/
def c5cfg : ProjectConfig :=
  { project_name := "p"
    description := "d"
    project_url := "https://x.org/p"
    authors := [⟨"Mo", "mo@example.com"⟩]
    dependencies := []
    dependency_groups := DEFAULT_DEPENDENCY_GROUPS
    dev_extras := [] }

/-- Concrete run of the URL normalization: three trailing slashes are
stripped and the derived issue-tracker URL appends `/issues` to the
stripped base. -/
theorem c5_project_url_trailing_slashes_witness :
    coerce_config c5raw = .ok c5cfg ∧
    c5cfg.project_url = rstripSlashes "https://x.org/p///" ∧
    c5cfg.project_url.data.getLast? ≠ some '/' ∧
    toml_unescape (issues_url c5cfg) = c5cfg.project_url ++ "/issues" ∧
    toml_unescape (releases_url c5cfg) = c5cfg.project_url ++ "/releases" := by
  have hok : coerce_config c5raw = .ok c5cfg := by rfl
  have h := c5_project_url_trailing_slashes c5raw "https://x.org/p///" c5cfg
    (by rfl) (by rfl) hok
  exact ⟨hok, h.1, h.2.1, h.2.2.2.2.1, h.2.2.2.2.2.2⟩

/-- `PRE_COMMIT_CONFIG`: static pre-commit pipeline, emitted verbatim. -/
def PRE_COMMIT_CONFIG : String :=
  "ci:\n" ++
  "  autoupdate_commit_msg: \"chore: update pre-commit hooks\"\n" ++
  "  autofix_commit_msg: \"style: pre-commit fixes\"\n" ++
  "\n" ++
  "repos:\n" ++
  "  - repo: https://github.com/pre-commit/pre-commit-hooks\n" ++
  "    rev: \"v6.0.0\"\n" ++
  "    hooks:\n" ++
  "      - id: check-added-large-files\n" ++
  "      - id: check-case-conflict\n" ++
  "      - id: check-merge-conflict\n" ++
  "      - id: check-symlinks\n" ++
  "      - id: check-yaml\n" ++
  "      - id: debug-statements\n" ++
  "      - id: end-of-file-fixer\n" ++
  "      - id: mixed-line-ending\n" ++
  "      - id: name-tests-test\n" ++
  "        args: [\"--pytest-test-first\"]\n" ++
  "      - id: trailing-whitespace\n" ++
  "\n" ++
  "  - repo: https://github.com/astral-sh/ruff-pre-commit\n" ++
  "    rev: \"v0.12.9\"\n" ++
  "    hooks:\n" ++
  "      - id: ruff\n" ++
  "        args: [\"--fix\", \"--show-fixes\"]\n" ++
  "      - id: ruff-format\n" ++
  "\n" ++
  "  - repo: https://github.com/pre-commit/mirrors-mypy\n" ++
  "    rev: \"v1.17.1\"\n" ++
  "    hooks:\n" ++
  "      - id: mypy\n" ++
  "        files: src|tests\n" ++
  "        args: [--config-file=pyproject.toml]\n" ++
  "        additional_dependencies:\n" ++
  "          - pytest\n" ++
  "\n" ++
  "  - repo: https://github.com/shellcheck-py/shellcheck-py\n" ++
  "    rev: \"v0.11.0.1\"\n" ++
  "    hooks:\n" ++
  "      - id: shellcheck\n" ++
  "\n" ++
  "  - repo: https://github.com/adamchainz/blacken-docs\n" ++
  "    rev: \"1.19.1\"\n" ++
  "    hooks:\n" ++
  "      - id: blacken-docs\n" ++
  "        additional_dependencies:\n" ++
  "          - black==24.10.0\n" ++
  "\n" ++
  "  - repo: https://github.com/codespell-project/codespell\n" ++
  "    rev: v2.4.1\n" ++
  "    hooks:\n" ++
  "      - id: codespell\n" ++
  "        exclude: ^(LICENSE$)\n" ++
  "\n" ++
  "  - repo: https://github.com/henryiii/validate-pyproject-schema-store\n" ++
  "    rev: 2025.08.15\n" ++
  "    hooks:\n" ++
  "      - id: validate-pyproject\n" ++
  "\n" ++
  "  - repo: https://github.com/python-jsonschema/check-jsonschema\n" ++
  "    rev: 0.33.3\n" ++
  "    hooks:\n" ++
  "      - id: check-readthedocs\n" ++
  "      - id: check-github-workflows\n" ++
  "\n" ++
  "  - repo: local\n" ++
  "    hooks:\n" ++
  "      - id: coverage\n" ++
  "        name: coverage\n" ++
  "        entry: bash -c 'if command -v uv >/dev/null 2>&1; then uv run coverage erase && uv run coverage run -m pytest && uv run coverage report --fail-under=85; else coverage erase && coverage run -m pytest && coverage report --fail-under=85; fi'\n" ++
  "        language: system\n" ++
  "        types: [python]\n" ++
  "        pass_filenames: false\n"

/-- `READTHEDOCS_CONFIG`: static docs-build configuration, emitted verbatim. -/
def READTHEDOCS_CONFIG : String :=
  "# https://docs.readthedocs.com/platform/stable/build-customization.html#install-dependencies-with-uv\n" ++
  "\n" ++
  "version: 2\n" ++
  "\n" ++
  "sphinx:\n" ++
  "   configuration: docs/conf.py\n" ++
  "\n" ++
  "build:\n" ++
  "   os: ubuntu-24.04\n" ++
  "   tools:\n" ++
  "      python: \"3.13\"\n" ++
  "   jobs:\n" ++
  "      pre_create_environment:\n" ++
  "         - asdf plugin add uv\n" ++
  "         - asdf install uv latest\n" ++
  "         - asdf global uv latest\n" ++
  "      create_environment:\n" ++
  "         - uv venv \"$\x7bREADTHEDOCS_VIRTUALENV_PATH\x7d\"\n" ++
  "      install:\n" ++
  "         - UV_PROJECT_ENVIRONMENT=\"$\x7bREADTHEDOCS_VIRTUALENV_PATH\x7d\" uv sync --group docs\n"

/-- `DOC_STUB`: the stub body shared by the documentation pages. -/
def DOC_STUB : String :=
  "This is a STUB.\n"

/-- `DOC_API_INDEX`: static API reference index page. -/
def DOC_API_INDEX : String :=
  "# API Reference\n" ++
  "\n" ++
  "The API reference is generated automatically from the source code. Modules are\n" ++
  "listed roughly in the order you will encounter them.\n" ++
  "\n" ++
  "```\x7beval-rst\x7d\n" ++
  ".. toctree::\n" ++
  "   :maxdepth: 2\n" ++
  "```\n" ++
  "\n" ++
  "This is a STUB.\n"

/-- `DOCS_CUSTOM_CSS`: static stylesheet, emitted verbatim. -/
def DOCS_CUSTOM_CSS : String :=
  "/* Force left alignment for autosummary tables in API reference */\n" ++
  "table.autosummary \x7b\n" ++
  "    margin-left: 0 !important;\n" ++
  "    margin-right: auto !important;\n" ++
  "\x7d\n" ++
  "\n" ++
  "/* Force left alignment for all docutils tables */\n" ++
  "table.docutils \x7b\n" ++
  "    margin-left: 0 !important;\n" ++
  "    margin-right: auto !important;\n" ++
  "\x7d\n" ++
  "\n" ++
  "/* Force left alignment for longtable */\n" ++
  "table.longtable \x7b\n" ++
  "    margin-left: 0 !important;\n" ++
  "    margin-right: auto !important;\n" ++
  "\x7d\n" ++
  "\n" ++
  "/* Ensure function/class signature blocks are left-aligned */\n" ++
  "dl.py,\n" ++
  "dl.function,\n" ++
  "dl.class,\n" ++
  "dl.method,\n" ++
  "dl.attribute \x7b\n" ++
  "    text-align: left !important;\n" ++
  "\x7d\n" ++
  "\n" ++
  "/* Force left alignment for definition lists */\n" ++
  "dl \x7b\n" ++
  "    margin-left: 0 !important;\n" ++
  "\x7d\n"

/-- `DOCS_MAKEFILE`: static documentation Makefile, emitted verbatim. -/
def DOCS_MAKEFILE : String :=
  "# Makefile for Sphinx documentation\n" ++
  "# taken from: https://github.com/cms-cat/order/blob/master/docs/Makefile\n" ++
  "\n" ++
  "# You can set these variables from the command line.\n" ++
  "SPHINXOPTS  =\n" ++
  "SPHINXBUILD = sphinx-build\n" ++
  "PAPER       =\n" ++
  "BUILDDIR    = _build\n" ++
  "\n" ++
  "# User-friendly check for sphinx-build\n" ++
  "ifeq ($(shell which $(SPHINXBUILD) >/dev/null 2>&1; echo $$?), 1)\n" ++
  "$(error The '$(SPHINXBUILD)' command was not found. Make sure you have Sphinx installed, then set the SPHINXBUILD environment variable to point to the full path of the '$(SPHINXBUILD)' executable. Alternatively you can add the directory with the executable to your PATH. If you don't have Sphinx installed, grab it from http://sphinx-doc.org/)\n" ++
  "endif\n" ++
  "\n" ++
  "# Internal variables.\n" ++
  "PAPEROPT_a4     = -D latex_paper_size=a4\n" ++
  "PAPEROPT_letter = -D latex_paper_size=letter\n" ++
  "ALLSPHINXOPTS   = -d $(BUILDDIR)/doctrees $(PAPEROPT_$(PAPER)) $(SPHINXOPTS) .\n" ++
  "# the i18n builder cannot share the environment and doctrees with the others\n" ++
  "I18NSPHINXOPTS  = $(PAPEROPT_$(PAPER)) $(SPHINXOPTS) .\n" ++
  "\n" ++
  ".PHONY: help clean html\n" ++
  "\n" ++
  "help:\n" ++
  "\t@echo \"Please use `make <target>' where <target> is one of\"\n" ++
  "\t@echo \"  clean      to cleanup all build files\"\n" ++
  "\t@echo \"  html       to make standalone HTML files\"\n" ++
  "\n" ++
  "clean:\n" ++
  "\trm -rf $(BUILDDIR)/*\n" ++
  "\n" ++
  "html:\n" ++
  "\t$(SPHINXBUILD) -b html $(ALLSPHINXOPTS) $(BUILDDIR)/html\n" ++
  "\t@echo\n" ++
  "\t@echo \"Build finished. The HTML pages are in $(BUILDDIR)/html.\"\n"

/-- `CI_WORKFLOW`: static CI pipeline, emitted verbatim. -/
def CI_WORKFLOW : String :=
  "name: CI\n" ++
  "\n" ++
  "concurrency:\n" ++
  "  group: $\x7b\x7b github.workflow \x7d\x7d-$\x7b\x7b github.ref \x7d\x7d\n" ++
  "  cancel-in-progress: true\n" ++
  "\n" ++
  "on:\n" ++
  "  workflow_dispatch:\n" ++
  "  pull_request:\n" ++
  "  push:\n" ++
  "    branches:\n" ++
  "      - main\n" ++
  "\n" ++
  "jobs:\n" ++
  "  pre-commit:\n" ++
  "    name: Format + lint code\n" ++
  "    runs-on: ubuntu-latest\n" ++
  "    steps:\n" ++
  "      - uses: actions/checkout@v5\n" ++
  "        with:\n" ++
  "          fetch-depth: 0\n" ++
  "      - uses: actions/setup-python@v6\n" ++
  "        with:\n" ++
  "          python-version: \"3.13\"\n" ++
  "      - name: Install uv\n" ++
  "        uses: astral-sh/setup-uv@v7\n" ++
  "      - name: Sync project dependencies\n" ++
  "        run: uv sync --group=dev\n" ++
  "      - uses: pre-commit/action@v3.0.1\n" ++
  "        with:\n" ++
  "          extra_args: --all-files\n" ++
  "\n" ++
  "  checks:\n" ++
  "    name: Run tests for Python $\x7b\x7b matrix.python-version \x7d\x7d on $\x7b\x7b matrix.runs-on \x7d\x7d\n" ++
  "    runs-on: $\x7b\x7b matrix.runs-on \x7d\x7d\n" ++
  "    needs: [pre-commit]\n" ++
  "    strategy:\n" ++
  "      fail-fast: false\n" ++
  "      matrix:\n" ++
  "        python-version: [\"3.11\", \"3.12\", \"3.13\"]\n" ++
  "        runs-on: [ubuntu-latest]\n" ++
  "\n" ++
  "    steps:\n" ++
  "      - uses: actions/checkout@v5\n" ++
  "        with:\n" ++
  "          fetch-depth: 0\n" ++
  "\n" ++
  "      - uses: actions/setup-python@v6\n" ++
  "        with:\n" ++
  "          python-version: $\x7b\x7b matrix.python-version \x7d\x7d\n" ++
  "          allow-prereleases: true\n" ++
  "\n" ++
  "      - name: Install uv\n" ++
  "        uses: astral-sh/setup-uv@v7\n" ++
  "\n" ++
  "      - name: Sync project + test deps\n" ++
  "        run: uv sync --group=test\n" ++
  "\n" ++
  "      - name: Test package\n" ++
  "        run: >-\n" ++
  "          uv run pytest -ra --cov --cov-report=xml --cov-report=term\n" ++
  "          --durations=20\n" ++
  "\n" ++
  "  docs:\n" ++
  "    name: Build documentation\n" ++
  "    runs-on: ubuntu-latest\n" ++
  "    needs: [pre-commit]\n" ++
  "    steps:\n" ++
  "      - uses: actions/checkout@v5\n" ++
  "        with:\n" ++
  "          fetch-depth: 0\n" ++
  "\n" ++
  "      - uses: actions/setup-python@v6\n" ++
  "        with:\n" ++
  "          python-version: \"3.13\"\n" ++
  "\n" ++
  "      - name: Install uv\n" ++
  "        uses: astral-sh/setup-uv@v7\n" ++
  "\n" ++
  "      - name: Sync project + docs deps\n" ++
  "        run: uv sync --group=docs\n" ++
  "\n" ++
  "      - name: Build docs\n" ++
  "        run: uv run sphinx-build -M html docs docs/_build -W --keep-going\n"

/-- The trivial placeholder test written to `tests/test_placeholder.py`. -/
def placeholder_test : String :=
  "from __future__ import annotations\n" ++
  "\n" ++
  "\n" ++
  "def test_placeholder() -> None:\n" ++
  "    assert True\n"

/-- The built-in minimal `.gitignore` used when the working directory has none (the actual content written is an environment-dependent external read). -/
def DEFAULT_GITIGNORE : String :=
  "__pycache__/\n" ++
  "*.pyc\n"

/-- `README_STUB.format(project_name=...)`: the rendered README. -/
def README_STUB (project_name : String) : String :=
  "# " ++
    project_name ++
    "\n" ++
    "\n" ++
    "This is a STUB.\n"

/-- `DOC_INDEX_TEMPLATE.format(project_name=...)`: the rendered docs index (the doubled braces of the source format string denote literal braces). -/
def DOC_INDEX_TEMPLATE (project_name : String) : String :=
  "# " ++
    project_name ++
    " documentation\n" ++
    "\n" ++
    "This is a STUB.\n" ++
    "\n" ++
    "```\x7btoctree\x7d\n" ++
    ":maxdepth: 1\n" ++
    ":caption: User Guide\n" ++
    "\n" ++
    "introduction\n" ++
    "quickstart\n" ++
    "concepts\n" ++
    "tutorials\n" ++
    "```\n" ++
    "\n" ++
    "```\x7btoctree\x7d\n" ++
    ":maxdepth: 1\n" ++
    ":caption: Developer Guide\n" ++
    "\n" ++
    "architecture\n" ++
    "contributing\n" ++
    "```\n" ++
    "\n" ++
    "```\x7btoctree\x7d\n" ++
    ":maxdepth: 1\n" ++
    ":caption: Reference\n" ++
    "\n" ++
    "api/index\n" ++
    "```\n"

/-- `INIT_TEMPLATE.format(...)`: the rendered package `__init__.py`. -/
def INIT_TEMPLATE (project_name description package_name author_label : String) : String :=
  "\"\"\"\n" ++
    project_name ++
    ": " ++
    description ++
    "\n" ++
    "\"\"\"\n" ++
    "\n" ++
    "from __future__ import annotations\n" ++
    "\n" ++
    "import datetime\n" ++
    "\n" ++
    "__name__ = \"" ++
    package_name ++
    "\"\n" ++
    "__author__ = \"" ++
    author_label ++
    "\"\n" ++
    "__copyright__ = f\"Copyright \x7bdatetime.datetime.now().year\x7d, " ++
    author_label ++
    "\"\n" ++
    "__version__ = \"0.0.1\"\n" ++
    "\n" ++
    "__all__ = [\n" ++
    "    \"__version__\",\n" ++
    "]\n"

/-- The text of `LICENSE_TEXT` before the `copyright_holder` placeholder. -/
def LICENSE_TEXT_PREFIX : String :=
  "MIT License\n" ++
  "\n" ++
  "Copyright (c) 2024 "

/-- The text of `LICENSE_TEXT` after the `copyright_holder` placeholder. -/
def LICENSE_TEXT_SUFFIX : String :=
  "\n" ++
  "\n" ++
  "Permission is hereby granted, free of charge, to any person obtaining a copy\n" ++
  "of this software and associated documentation files (the \"Software\"), to deal\n" ++
  "in the Software without restriction, including without limitation the rights\n" ++
  "to use, copy, modify, merge, publish, distribute, sublicense, and/or sell\n" ++
  "copies of the Software, and to permit persons to whom the Software is\n" ++
  "furnished to do so, subject to the following conditions:\n" ++
  "\n" ++
  "The above copyright notice and this permission notice shall be included in all\n" ++
  "copies or substantial portions of the Software.\n" ++
  "\n" ++
  "THE SOFTWARE IS PROVIDED \"AS IS\", WITHOUT WARRANTY OF ANY KIND, EXPRESS OR\n" ++
  "IMPLIED, INCLUDING BUT NOT LIMITED TO THE WARRANTIES OF MERCHANTABILITY,\n" ++
  "FITNESS FOR A PARTICULAR PURPOSE AND NONINFRINGEMENT. IN NO EVENT SHALL THE\n" ++
  "AUTHORS OR COPYRIGHT HOLDERS BE LIABLE FOR ANY CLAIM, DAMAGES OR OTHER\n" ++
  "LIABILITY, WHETHER IN AN ACTION OF CONTRACT, TORT OR OTHERWISE, ARISING FROM,\n" ++
  "OUT OF OR IN CONNECTION WITH THE SOFTWARE OR THE USE OR OTHER DEALINGS IN THE\n" ++
  "SOFTWARE.\n"

/-- `LICENSE_TEXT.format(copyright_holder=...)`: the rendered MIT license. -/
def LICENSE_TEXT (copyright_holder : String) : String :=
  LICENSE_TEXT_PREFIX ++ copyright_holder ++ LICENSE_TEXT_SUFFIX

/-- The rendered `conf.py` up to (but excluding) the `author = "` field
opener. -/
def doc_conf_part1 (project_name : String) : String :=
  "    \"\"\"Sphinx configuration for the " ++
    project_name ++
    " documentation.\"\"\"\n" ++
    "\n" ++
    "    from __future__ import annotations\n" ++
    "\n" ++
    "    import datetime as _dt\n" ++
    "    import sys\n" ++
    "    from pathlib import Path\n" ++
    "\n" ++
    "    PROJECT_ROOT = Path(__file__).resolve().parents[1]\n" ++
    "    sys.path.insert(0, str(PROJECT_ROOT / \"src\"))\n" ++
    "\n" ++
    "    project = \"" ++
    project_name ++
    "\"\n" ++
    "    "

/-- The rendered `conf.py` between the closing quote of the `author`
field and the `"source_repository": "` field opener. -/
def doc_conf_part2 (author_label repository_url : String) : String :=
  "\n" ++
    "    copyright = f\"\x7b\x7b_dt.datetime.now().year\x7d\x7d, " ++
    author_label ++
    "\"\n" ++
    "\n" ++
    "    extensions = [\n" ++
    "        \"myst_nb\",\n" ++
    "        \"sphinx_design\",\n" ++
    "        \"sphinx.ext.autodoc\",\n" ++
    "        \"sphinx.ext.autosummary\",\n" ++
    "        \"sphinx.ext.napoleon\",\n" ++
    "        \"sphinx.ext.intersphinx\",\n" ++
    "        \"sphinx.ext.viewcode\",\n" ++
    "        \"sphinxcontrib.mermaid\",\n" ++
    "    ]\n" ++
    "\n" ++
    "    autosummary_generate = True\n" ++
    "    autosummary_imported_members = False\n" ++
    "    autodoc_typehints = \"description\"\n" ++
    "    napoleon_google_docstring = True\n" ++
    "    napoleon_numpy_docstring = True\n" ++
    "\n" ++
    "    autodoc_default_options = \x7b\n" ++
    "        \"members\": True,\n" ++
    "        \"undoc-members\": False,\n" ++
    "        \"show-inheritance\": False,\n" ++
    "    \x7d\n" ++
    "    autodoc_member_order = \"bysource\"\n" ++
    "\n" ++
    "    myst_enable_extensions = [\n" ++
    "        \"colon_fence\",\n" ++
    "        \"deflist\",\n" ++
    "        \"html_image\",\n" ++
    "    ]\n" ++
    "\n" ++
    "    myst_fence_as_directive = [\"mermaid\"]\n" ++
    "\n" ++
    "    nb_execution_mode = \"off\"\n" ++
    "\n" ++
    "    html_theme = \"furo\"\n" ++
    "    html_static_path = [\"_static\"]\n" ++
    "    html_css_files = [\"custom.css\"]\n" ++
    "    html_logo = None\n" ++
    "    html_theme_options = \x7b\x7b\n" ++
    "        \"footer_icons\": [\n" ++
    "            \x7b\x7b\n" ++
    "                \"name\": \"GitHub\",\n" ++
    "                \"url\": \"" ++
    repository_url ++
    "\",\n" ++
    "                \"html\": \"\"\"\n" ++
    "                    <svg stroke=\"currentColor\" fill=\"currentColor\" stroke-width=\"0\" viewBox=\"0 0 16 16\">\n" ++
    "                        <path fill-rule=\"evenodd\" d=\"M8 0C3.58 0 0 3.58 0 8c0 3.54 2.29 6.53 5.47 7.59.4.07.55-.17.55-.38 0-.19-.01-.82-.01-1.49-2.01.37-2.53-.49-2.69-.94-.09-.23-.48-.94-.82-1.13-.28-.15-.68-.52-.01-.53.63-.01 1.08.58 1.23.82.72 1.21 1.87.87 2.33.66.07-.52.28-.87.51-1.07-1.78-.2-3.64-.89-3.64-3.95 0-.87.31-1.59.82-2.15-.08-.2-.36-1.02.08-2.12 0 0 .67-.21 2.2.82.64-.18 1.32-.27 2-.27.68 0 1.36.09 2 .27 1.53-1.04 2.2-.82 2.2-.82.44 1.1.16 1.92.08 2.12.51.56.82 1.27.82 2.15 0 3.07-1.87 3.75-3.65 3.95.29.25.54.73.54 1.48 0 1.07-.01 1.93-.01 2.2 0 .21.15.46.55.38A8.013 8.013 0 0 0 16 8c0-4.42-3.58-8-8-8z\"></path>\n" ++
    "                    </svg>\n" ++
    "                \"\"\",\n" ++
    "                \"class\": \"\",\n" ++
    "            \x7d\x7d,\n" ++
    "        ],\n" ++
    "        "

/-- The rendered `conf.py` after the closing quote of the
`source_repository` field. -/
def doc_conf_part3 (project_name : String) : String :=
  ",\n" ++
    "        \"source_branch\": \"main\",\n" ++
    "        \"source_directory\": \"docs/\",\n" ++
    "    \x7d\x7d\n" ++
    "\n" ++
    "    intersphinx_mapping = \x7b\x7b\n" ++
    "        \"python\": (\"https://docs.python.org/3\", None),\n" ++
    "        \"numpy\": (\"https://numpy.org/doc/stable/\", None),\n" ++
    "        \"jax\": (\"https://jax.readthedocs.io/en/latest/\", None),\n" ++
    "    \x7d\x7d\n" ++
    "\n" ++
    "    templates_path = [\"_templates\"]\n" ++
    "    exclude_patterns = [\"_build\", \"Thumbs.db\", \".DS_Store\", \"python/\"]\n" ++
    "\n" ++
    "    html_title = \" \"\n" ++
    "    html_baseurl = \"https://" ++
    project_name ++
    ".readthedocs.io/\"\n" ++
    "    "

/-- `DOC_CONF_TEMPLATE.substitute(...)`: the rendered Sphinx `conf.py`.
The source template is not dedented, so its four-space indentation is part
of the emitted text. -/
def DOC_CONF_TEMPLATE (project_name author_label repository_url : String) : String :=
  doc_conf_part1 project_name ++ "author = \"" ++ author_label ++ "\"" ++
    doc_conf_part2 author_label repository_url ++
    "\"source_repository\": \"" ++ repository_url ++ "\"" ++
    doc_conf_part3 project_name

/-- `format_authors`: one literal TOML record per author; a placeholder
record when the list is empty. -/
def format_authors (authors : List Author) : String :=
  if authors.isEmpty then "    \x7b name = \"Mo\", email = \"todo@example.com\" \x7d,"
  else
    String.intercalate "\n"
      (authors.map fun author =>
        "    \x7b name = \"" ++ author.name ++ "\", email = \"" ++ author.email ++ "\" \x7d,")

/-- `build_author_label`: the comma-joined author names, or the
`"<project_name> developers"` fallback when the list is empty. -/
def build_author_label (authors : List Author) (project_name : String) : String :=
  if authors.isEmpty then project_name ++ " developers"
  else String.intercalate ", " (authors.map Author.name)

/-- `build_pyproject`: the rendered `pyproject.toml`.  The source wraps the
interpolated template in `textwrap.dedent`, but `dedent` is the identity
there: the interpolated dependency-groups block always contains a
column-zero line (the closing bracket of the synthesized `dev` group), so
the common leading whitespace of the result is empty and the eight-space
template margin is kept. -/
def build_pyproject (config : ProjectConfig) : String :=
  let package_name := normalize_package_name config.project_name
  let authors_block := format_authors config.authors
  let dependencies_block := format_string_array config.dependencies 4
  let dependency_groups_block :=
    format_dependency_groups config.dependency_groups config.dev_extras
  let description := escape_toml_string config.description
  "        [build-system]\n" ++
    "        requires = [\"hatchling\"]\n" ++
    "        build-backend = \"hatchling.build\"\n" ++
    "\n" ++
    "\n" ++
    "        [project]\n" ++
    "        name = \"" ++
    config.project_name ++
    "\"\n" ++
    "        description = \"" ++
    description ++
    "\"\n" ++
    "        license = \"MIT\"\n" ++
    "        license-files = [\"LICENSE\"]\n" ++
    "        readme = \"README.md\"\n" ++
    "        requires-python = \">=3.11\"\n" ++
    "        classifiers = [\n" ++
    "            \"Development Status :: 1 - Planning\",\n" ++
    "            \"Intended Audience :: Science/Research\",\n" ++
    "            \"Intended Audience :: Developers\",\n" ++
    "            \"Operating System :: OS Independent\",\n" ++
    "            \"Programming Language :: Python\",\n" ++
    "            \"Programming Language :: Python :: 3\",\n" ++
    "            \"Programming Language :: Python :: 3 :: Only\",\n" ++
    "            \"Programming Language :: Python :: 3.11\",\n" ++
    "            \"Programming Language :: Python :: 3.12\",\n" ++
    "            \"Programming Language :: Python :: 3.13\",\n" ++
    "            \"Topic :: Scientific/Engineering\",\n" ++
    "            \"Typing :: Typed\",\n" ++
    "        ]\n" ++
    "        dynamic = [\"version\"]\n" ++
    "        authors = [\n" ++
    "        " ++
    authors_block ++
    "\n" ++
    "        ]\n" ++
    "        dependencies = [\n" ++
    "        " ++
    dependencies_block ++
    "\n" ++
    "        ]\n" ++
    "\n" ++
    "\n" ++
    "        [dependency-groups]\n" ++
    "        " ++
    dependency_groups_block ++
    "\n" ++
    "\n" ++
    "\n" ++
    "        [project.urls]\n" ++
    "        Homepage = \"" ++
    homepage config ++
    "\"\n" ++
    "        \"Bug Tracker\" = \"" ++
    issues_url config ++
    "\"\n" ++
    "        Discussions = \"" ++
    discussions_url config ++
    "\"\n" ++
    "        Changelog = \"" ++
    releases_url config ++
    "\"\n" ++
    "\n" ++
    "\n" ++
    "        [tool.hatch]\n" ++
    "        version.path = \"src/" ++
    package_name ++
    "/__init__.py\"\n" ++
    "\n" ++
    "\n" ++
    "        [tool.pytest.ini_options]\n" ++
    "        minversion = \"7\"\n" ++
    "        xfail_strict = true\n" ++
    "        addopts = [\"-ra\", \"--strict-config\", \"--strict-markers\"]\n" ++
    "        pythonpath = [\"src\"]\n" ++
    "        filterwarnings = [\n" ++
    "            \"error\",\n" ++
    "        ]\n" ++
    "        log_cli_level = \"INFO\"\n" ++
    "        testpaths = [\"tests\"]\n" ++
    "\n" ++
    "\n" ++
    "        [tool.coverage]\n" ++
    "        run.source = [\"" ++
    package_name ++
    "\"]\n" ++
    "        port.exclude_lines = ['pragma: no cover', '\\.\\.\\.', 'if typing.TYPE_CHECKING:']\n" ++
    "\n" ++
    "\n" ++
    "        [tool.mypy]\n" ++
    "        files = [\"src\", \"tests\"]\n" ++
    "        python_version = \"3.13\"\n" ++
    "        warn_unreachable = true\n" ++
    "        disallow_untyped_defs = false\n" ++
    "        disallow_incomplete_defs = false\n" ++
    "        check_untyped_defs = true\n" ++
    "        enable_error_code = [\"ignore-without-code\", \"redundant-expr\", \"truthy-bool\"]\n" ++
    "        strict = false\n" ++
    "        ignore_missing_imports = true\n" ++
    "\n" ++
    "\n" ++
    "        [tool.ruff.lint]\n" ++
    "        preview = true\n" ++
    "        ignore = [\n" ++
    "            \"PLR\",\n" ++
    "            \"E501\",\n" ++
    "            \"I002\",\n" ++
    "            \"ISC001\",\n" ++
    "            \"PLC0415\",\n" ++
    "            \"PLW3201\",\n" ++
    "            \"RUF052\",\n" ++
    "            \"F722\",\n" ++
    "        ]\n" ++
    "        select = [\n" ++
    "            \"E\",\n" ++
    "            \"F\",\n" ++
    "            \"W\",\n" ++
    "            \"B\",\n" ++
    "            \"I\",\n" ++
    "            \"C4\",\n" ++
    "            \"EM\",\n" ++
    "            \"ICN\",\n" ++
    "            \"ISC\",\n" ++
    "            \"G\",\n" ++
    "            \"PGH\",\n" ++
    "            \"PIE\",\n" ++
    "            \"PL\",\n" ++
    "            \"PT\",\n" ++
    "            \"PTH\",\n" ++
    "            \"RET\",\n" ++
    "            \"RUF\",\n" ++
    "            \"SIM\",\n" ++
    "            \"UP\",\n" ++
    "            \"YTT\",\n" ++
    "            \"EXE\",\n" ++
    "            \"E303\",\n" ++
    "        ]\n" ++
    "        unfixable = [\n" ++
    "            \"F841\",\n" ++
    "        ]\n" ++
    "        flake8-unused-arguments.ignore-variadic-names = true\n" ++
    "        isort.required-imports = [\"from __future__ import annotations\"]\n" ++
    "        "

/-- `pat` occurs verbatim inside `s`. -/
def strInfix (pat s : String) : Prop :=
  ∃ p q, s = p ++ pat ++ q

theorem stringAppendAssoc (a b c : String) : (a ++ b) ++ c = a ++ (b ++ c) := by
  cases a with
  | mk la =>
    cases b with
    | mk lb =>
      cases c with
      | mk lc => exact congrArg String.mk (List.append_assoc la lb lc)

/-- C6: For every descriptor, the author label equals the comma-joined list
of author names when authors is non-empty, and equals '<project_name>
developers' when authors is empty; this label is the LICENSE copyright
holder (so for authors [{name: Mo}] the LICENSE contains 'Mo') and the
documentation configuration's author, and the documentation configuration's
repository URL field equals the slash-trimmed project_url. -/
theorem c6_author_label (authors : List Author) (project_name : String)
    (raw : List (String × Value)) (urlv : Value) (cfg : ProjectConfig)
    (hurl : pyLookup raw "project_url" = some urlv)
    (hok : coerce_config raw = .ok cfg) :
    (authors.isEmpty = true →
      build_author_label authors project_name = project_name ++ " developers") ∧
    (authors.isEmpty = false →
      build_author_label authors project_name =
        String.intercalate ", " (authors.map Author.name)) ∧
    strInfix (build_author_label authors project_name)
      (LICENSE_TEXT (build_author_label authors project_name)) ∧
    (∀ em, authors = [⟨"Mo", em⟩] →
      strInfix "Mo" (LICENSE_TEXT (build_author_label authors project_name))) ∧
    strInfix ("author = \"" ++ build_author_label cfg.authors cfg.project_name ++ "\"")
      (DOC_CONF_TEMPLATE cfg.project_name
        (build_author_label cfg.authors cfg.project_name) cfg.project_url) ∧
    strInfix ("\"source_repository\": \"" ++ rstripSlashes (pyStr urlv) ++ "\"")
      (DOC_CONF_TEMPLATE cfg.project_name
        (build_author_label cfg.authors cfg.project_name) cfg.project_url) := by
  obtain ⟨pn, desc, url, al, aas, deps, groups, dgroups, extras,
    _, _, hurl2, _, _, _, _, _, _, _, hcfg⟩ := coerce_config_ok_elim raw cfg hok
  rw [hurl] at hurl2
  cases hurl2
  have hrepo : cfg.project_url = rstripSlashes (pyStr urlv) := by subst hcfg; rfl
  refine ⟨?_, ?_, ?_, ?_, ?_, ?_⟩
  · intro h; simp [build_author_label, h]
  · intro h; simp [build_author_label, h]
  · exact ⟨LICENSE_TEXT_PREFIX, LICENSE_TEXT_SUFFIX, rfl⟩
  · intro em h
    have hl : build_author_label authors project_name = "Mo" := by
      rw [h]; rfl
    rw [hl]
    exact ⟨LICENSE_TEXT_PREFIX, LICENSE_TEXT_SUFFIX, rfl⟩
  · refine ⟨doc_conf_part1 cfg.project_name,
      doc_conf_part2 (build_author_label cfg.authors cfg.project_name) cfg.project_url ++
        "\"source_repository\": \"" ++ cfg.project_url ++ "\"" ++
        doc_conf_part3 cfg.project_name, ?_⟩
    simp only [DOC_CONF_TEMPLATE, stringAppendAssoc]
  · rw [← hrepo]
    refine ⟨doc_conf_part1 cfg.project_name ++ "author = \"" ++
        build_author_label cfg.authors cfg.project_name ++ "\"" ++
        doc_conf_part2 (build_author_label cfg.authors cfg.project_name) cfg.project_url,
      doc_conf_part3 cfg.project_name, ?_⟩
    simp only [DOC_CONF_TEMPLATE, stringAppendAssoc]

/-- A concrete raw document with a single author `Mo` and a project URL with
one trailing slash. -/
def c6raw : List (String × Value) :=
  [("project_name", .vstr "sample-project"), ("description", .vstr "Sample."),
   ("project_url", .vstr "https://github.com/MoAly98/sample-project/"),
   ("authors", .vlist [.vdict [("name", .vstr "Mo"), ("email", .vstr "mo@example.com")]]),
   ("dependencies", .vlist []),
   ("dependency_groups", .vdict []),
   ("dev_extras", .vlist [])]

/-- The descriptor `coerce_config` resolves `c6raw` to. -/
def c6cfg : ProjectConfig :=
  { project_name := "sample-project"
    description := "Sample."
    project_url := "https://github.com/MoAly98/sample-project"
    authors := [⟨"Mo", "mo@example.com"⟩]
    dependencies := []
    dependency_groups := DEFAULT_DEPENDENCY_GROUPS
    dev_extras := [] }

/-- Concrete run: the author label is `Mo`, the LICENSE contains `Mo`, and
the documentation configuration's repository URL field carries the
slash-trimmed project URL. -/
theorem c6_author_label_witness :
    coerce_config c6raw = .ok c6cfg ∧
    build_author_label c6cfg.authors c6cfg.project_name = "Mo" ∧
    strInfix "Mo"
      (LICENSE_TEXT (build_author_label c6cfg.authors c6cfg.project_name)) ∧
    strInfix ("\"source_repository\": \"" ++
        "https://github.com/MoAly98/sample-project" ++ "\"")
      (DOC_CONF_TEMPLATE c6cfg.project_name
        (build_author_label c6cfg.authors c6cfg.project_name) c6cfg.project_url) := by
  have hok : coerce_config c6raw = .ok c6cfg := by rfl
  have h := c6_author_label c6cfg.authors c6cfg.project_name c6raw
    (.vstr "https://github.com/MoAly98/sample-project/") c6cfg (by rfl) hok
  exact ⟨hok, by rfl, h.2.2.2.1 "mo@example.com" (by rfl), h.2.2.2.2.2⟩

/-- The ASCII whitespace characters recognised by Python's `str.rstrip()`
(other Unicode whitespace does not occur in the generated content). -/
def isPySpace (c : Char) : Bool :=
  c = ' ' || c = '\t' || c = '\n' || c = '\r' || c = '\x0b' || c = '\x0c'

/-- Python `content.rstrip()`: strip all trailing whitespace. -/
def pyRstrip (s : String) : String :=
  String.mk (s.data.reverse.dropWhile isPySpace).reverse

/-- The bytes `write_file` writes for a given content:
`content.rstrip() + "\n"`. -/
def write_content (content : String) : String :=
  pyRstrip content ++ "\n"

/-- An abstract filesystem: the existing directory paths and the written
files with their contents.  A path is its list of components. -/
structure FS where
  dirs : List (List String)
  files : List (List String × String)
  deriving DecidableEq

/-- `path.exists()`: the path is a known directory or file. -/
def fsHasPath (fs : FS) (p : List String) : Bool :=
  decide (p ∈ fs.dirs) || decide (p ∈ fs.files.map Prod.fst)

/-- The two filesystem precondition errors of `generate_from_config`
(`FileNotFoundError` and `FileExistsError`). -/
inductive EmitError where
  | destinationNotFound (destination : List String)
  | projectRootExists (project_root : List String)
  deriving DecidableEq

/-- `ensure_directory`: `path.mkdir(parents=True, exist_ok=True)` — the
directory and every ancestor exists afterwards. -/
def ensure_directory (fs : FS) (path : List String) : FS :=
  { fs with dirs := fs.dirs ++ (List.range path.length).map (fun n => path.take (n + 1)) }

/-- `write_file`: record the normalized content at the path. -/
def write_file (fs : FS) (path : List String) (content : String) : FS :=
  { fs with files := fs.files ++ [(path, write_content content)] }

/-- The `directories` list of `generate_from_config`. -/
def scaffold_directories (config : ProjectConfig) (project_root : List String) :
    List (List String) :=
  let package_name := normalize_package_name config.project_name
  [project_root ++ ["src", package_name],
   project_root ++ ["tests"],
   project_root ++ ["docs", "_static"],
   project_root ++ ["docs", "_templates"],
   project_root ++ ["docs", "api"],
   project_root ++ [".github", "workflows"],
   project_root ++ ["examples"]]

/-- The `write_file` call sequence of `generate_from_config`, in source
order: each path with the template content passed to `write_file`.  The
`.gitignore` content is an environment-dependent external read, passed in
as `gitignore_content`. -/
def scaffold_writes (config : ProjectConfig) (gitignore_content : String)
    (project_root : List String) : List (List String × String) :=
  let package_name := normalize_package_name config.project_name
  let author_label_value := build_author_label config.authors config.project_name
  [(project_root ++ ["pyproject.toml"], build_pyproject config),
   (project_root ++ [".pre-commit-config.yaml"], PRE_COMMIT_CONFIG),
   (project_root ++ [".readthedocs.yaml"], READTHEDOCS_CONFIG),
   (project_root ++ ["LICENSE"], LICENSE_TEXT author_label_value),
   (project_root ++ ["README.md"], README_STUB config.project_name),
   (project_root ++ [".gitignore"], gitignore_content),
   (project_root ++ [".github", "workflows", "ci.yml"], CI_WORKFLOW),
   (project_root ++ ["docs", "index.md"], DOC_INDEX_TEMPLATE config.project_name),
   (project_root ++ ["docs", "conf.py"],
    DOC_CONF_TEMPLATE config.project_name author_label_value config.project_url),
   (project_root ++ ["docs", "introduction.md"], "# Introduction\n\n" ++ DOC_STUB),
   (project_root ++ ["docs", "quickstart.md"], "# Quickstart\n\n" ++ DOC_STUB),
   (project_root ++ ["docs", "concepts.md"], "# Core Concepts\n\n" ++ DOC_STUB),
   (project_root ++ ["docs", "tutorials.md"], "# Tutorials\n\n" ++ DOC_STUB),
   (project_root ++ ["docs", "architecture.md"], "# Architecture\n\n" ++ DOC_STUB),
   (project_root ++ ["docs", "contributing.md"], "# Contributing Guide\n\n" ++ DOC_STUB),
   (project_root ++ ["docs", "api", "index.md"], DOC_API_INDEX),
   (project_root ++ ["docs", "api", "inference.md"], "# Inference API\n\n" ++ DOC_STUB),
   (project_root ++ ["docs", "api", "parameters.md"], "# Parameters API\n\n" ++ DOC_STUB),
   (project_root ++ ["docs", "api", "statelib.md"], "# Statelib API\n\n" ++ DOC_STUB),
   (project_root ++ ["docs", "_static", "custom.css"], DOCS_CUSTOM_CSS),
   (project_root ++ ["docs", "_templates", ".gitkeep"], ""),
   (project_root ++ ["docs", "Makefile"], DOCS_MAKEFILE),
   (project_root ++ ["src", package_name, "__init__.py"],
    INIT_TEMPLATE config.project_name config.description package_name author_label_value),
   (project_root ++ ["tests", "test_placeholder.py"], placeholder_test),
   (project_root ++ ["examples", ".gitkeep"], "")]

/-- `generate_from_config` over the abstract filesystem, starting from an
already-validated descriptor (the source first resolves the configuration
file; claims about emission quantify over the descriptor).  Both existence
checks run before any directory or file is created, so on a precondition
failure the filesystem is returned unchanged alongside the error. -/
def generate_from_config (config : ProjectConfig) (gitignore_content : String)
    (destination : List String) (fs : FS) : FS × Except EmitError (List String) :=
  if fsHasPath fs destination = false then
    (fs, .error (.destinationNotFound destination))
  else
    let project_root := destination ++ [config.project_name]
    if fsHasPath fs project_root then
      (fs, .error (.projectRootExists project_root))
    else
      let fs := (scaffold_directories config project_root).foldl ensure_directory fs
      let fs := (scaffold_writes config gitignore_content project_root).foldl
        (fun acc w => write_file acc w.1 w.2) fs
      (fs, .ok project_root)

theorem foldl_ensure_files (ps : List (List String)) (fs : FS) :
    (ps.foldl ensure_directory fs).files = fs.files := by
  induction ps generalizing fs with
  | nil => rfl
  | cons p rest ih => rw [List.foldl_cons, ih]; rfl

theorem foldl_ensure_dirs_mono (ps : List (List String)) (fs : FS) (p : List String)
    (h : p ∈ fs.dirs) : p ∈ (ps.foldl ensure_directory fs).dirs := by
  induction ps generalizing fs with
  | nil => exact h
  | cons q rest ih =>
    rw [List.foldl_cons]
    exact ih _ (List.mem_append_left _ h)

theorem foldl_write_eq (ws : List (List String × String)) (fs : FS) :
    ws.foldl (fun acc w => write_file acc w.1 w.2) fs =
      ⟨fs.dirs, fs.files ++ ws.map (fun w => (w.1, write_content w.2))⟩ := by
  induction ws generalizing fs with
  | nil => simp
  | cons w rest ih =>
    rw [List.foldl_cons, ih]
    simp [write_file]

theorem generate_ok_elim (config : ProjectConfig) (gitignore_content : String)
    (destination : List String) (fs fs₁ : FS) (root : List String)
    (h : generate_from_config config gitignore_content destination fs = (fs₁, .ok root)) :
    fsHasPath fs destination = true ∧
    fsHasPath fs (destination ++ [config.project_name]) = false ∧
    root = destination ++ [config.project_name] ∧
    fs₁ = (scaffold_writes config gitignore_content root).foldl
      (fun acc w => write_file acc w.1 w.2)
      ((scaffold_directories config root).foldl ensure_directory fs) := by
  unfold generate_from_config at h
  by_cases h1 : fsHasPath fs destination = false
  · rw [if_pos h1] at h
    cases h
  · rw [if_neg h1] at h
    by_cases h2 : fsHasPath fs (destination ++ [config.project_name]) = true
    · rw [if_pos h2] at h
      cases h
    · rw [if_neg h2] at h
      cases h
      exact ⟨Bool.of_not_eq_false h1, Bool.of_not_eq_true h2, rfl, rfl⟩

/-- C3: For every descriptor and destination path, emission fails when the
destination directory does not exist or when <destination>/<project_name>
already exists, and both checks are performed before any directory or file
is created, so a call that fails either precondition leaves the filesystem
unchanged; in particular, calling emit a second time with the same
descriptor and destination fails with an 'already exists' error and leaves
the first run's tree untouched. -/
theorem c3_emit_preconditions (config : ProjectConfig) (gitignore_content : String)
    (destination : List String) (fs : FS) :
    (fsHasPath fs destination = false →
      generate_from_config config gitignore_content destination fs =
        (fs, .error (.destinationNotFound destination))) ∧
    (fsHasPath fs destination = true →
      fsHasPath fs (destination ++ [config.project_name]) = true →
      generate_from_config config gitignore_content destination fs =
        (fs, .error (.projectRootExists (destination ++ [config.project_name])))) ∧
    (∀ fs₁ root,
      generate_from_config config gitignore_content destination fs = (fs₁, .ok root) →
      generate_from_config config gitignore_content destination fs₁ =
        (fs₁, .error (.projectRootExists root))) := by
  refine ⟨?_, ?_, ?_⟩
  · intro h
    unfold generate_from_config
    rw [if_pos h]
  · intro h1 h2
    unfold generate_from_config
    rw [if_neg (by simp [h1]), if_pos h2]
  · intro fs₁ root h
    obtain ⟨hdest, hroot, hr, hfs⟩ :=
      generate_ok_elim config gitignore_content destination fs fs₁ root h
    subst hr
    have hfsdirs : fs₁.dirs =
        ((scaffold_directories config (destination ++ [config.project_name])).foldl
          ensure_directory fs).dirs := by
      rw [hfs, foldl_write_eq]
    have hfsfiles : fs₁.files =
        fs.files ++ ((scaffold_writes config gitignore_content
            (destination ++ [config.project_name])).map
          (fun w => (w.1, write_content w.2))) := by
      rw [hfs, foldl_write_eq, foldl_ensure_files]
    have hrootmem : (destination ++ [config.project_name]) ∈ fs₁.dirs := by
      rw [hfsdirs]
      unfold scaffold_directories
      rw [List.foldl_cons]
      apply foldl_ensure_dirs_mono
      unfold ensure_directory
      apply List.mem_append_right
      apply List.mem_map.mpr
      refine ⟨destination.length, ?_, ?_⟩
      · apply List.mem_range.mpr
        simp [List.length_append]
      · rw [show destination.length + 1 =
            (destination ++ [config.project_name]).length by simp]
        exact List.take_left _ _
    have hdest1 : fsHasPath fs₁ destination = true := by
      have hd : destination ∈ fs.dirs ∨ ∃ x, (destination, x) ∈ fs.files := by
        simpa [fsHasPath] using hdest
      rcases hd with hd | ⟨x, hf⟩
      · have : destination ∈ fs₁.dirs := by
          rw [hfsdirs]
          exact foldl_ensure_dirs_mono _ _ _ hd
        simp [fsHasPath, this]
      · have : destination ∈ fs₁.files.map Prod.fst := by
          rw [hfsfiles, List.map_append]
          exact List.mem_append_left _ (List.mem_map.mpr ⟨(destination, x), hf, rfl⟩)
        simp [fsHasPath, this]
    have hroot1 : fsHasPath fs₁ (destination ++ [config.project_name]) = true := by
      simp [fsHasPath, hrootmem]
    unfold generate_from_config
    rw [if_neg (by simp [hdest1]), if_pos hroot1]

/-- A small validated descriptor for concrete emission runs. -/
def c3cfg : ProjectConfig :=
  { project_name := "p"
    description := "d"
    project_url := "https://x.org/p"
    authors := [⟨"Mo", "mo@example.com"⟩]
    dependencies := ["numpy"]
    dependency_groups := DEFAULT_DEPENDENCY_GROUPS
    dev_extras := [] }

/-- A filesystem holding only the destination directory. -/
def c3fs : FS := ⟨[["dest"]], []⟩

/-- Concrete emission runs: a missing destination fails and leaves the
filesystem unchanged, and a second run after a successful one fails with
the already-exists error, also leaving the filesystem unchanged. -/
theorem c3_emit_preconditions_witness :
    (generate_from_config c3cfg "git" ["missing"] c3fs =
      (c3fs, .error (.destinationNotFound ["missing"]))) ∧
    ∃ fs₁ root,
      generate_from_config c3cfg "git" ["dest"] c3fs = (fs₁, .ok root) ∧
      generate_from_config c3cfg "git" ["dest"] fs₁ =
        (fs₁, .error (.projectRootExists root)) := by
  constructor
  · exact (c3_emit_preconditions c3cfg "git" ["missing"] c3fs).1 (by decide)
  · refine ⟨_, _, rfl, ?_⟩
    exact (c3_emit_preconditions c3cfg "git" ["dest"] c3fs).2.2 _ _ rfl

theorem isPySpace_of_head_dropWhile {l : List Char} {c : Char}
    (h : (l.dropWhile isPySpace).head? = some c) : isPySpace c = false :=
  head_dropWhile_not isPySpace l c h

/-- The written bytes are normalized: they end with exactly one newline and
carry no trailing whitespace before it. -/
def isNormalizedWrite (s : String) : Bool :=
  match s.data.reverse with
  | [] => false
  | c :: rest =>
    c = '\n' &&
      (match rest with
       | [] => true
       | d :: _ => !isPySpace d)

theorem stringDataAppend (s t : String) : (s ++ t).data = s.data ++ t.data := by
  cases s
  cases t
  rfl

theorem write_content_normalized (content : String) :
    isNormalizedWrite (write_content content) = true := by
  have hdata : (write_content content).data.reverse =
      '\n' :: content.data.reverse.dropWhile isPySpace := by
    rw [write_content, stringDataAppend]
    rw [show (pyRstrip content).data = (content.data.reverse.dropWhile isPySpace).reverse
      from rfl]
    simp
  rw [isNormalizedWrite, hdata]
  cases hdw : content.data.reverse.dropWhile isPySpace with
  | nil => simp
  | cons d ds =>
    have : isPySpace d = false :=
      isPySpace_of_head_dropWhile (by rw [hdw]; rfl)
    simp [this]

/-- C8: For every string content passed to the file-writing operation, the
bytes written are the content trimmed of trailing whitespace and terminated
with exactly one trailing newline, and this normalization is applied
uniformly to every file the emitter writes regardless of the template's own
formatting. -/
theorem c8_write_normalization (config : ProjectConfig) (gitignore_content : String)
    (destination : List String) (fs fs₁ : FS) (root : List String)
    (h : generate_from_config config gitignore_content destination fs = (fs₁, .ok root)) :
    fs₁.files = fs.files ++
      (scaffold_writes config gitignore_content root).map
        (fun w => (w.1, write_content w.2)) ∧
    (∀ content, write_content content = pyRstrip content ++ "\n") ∧
    ∀ w ∈ scaffold_writes config gitignore_content root,
      isNormalizedWrite (write_content w.2) = true := by
  obtain ⟨hdest, hroot, hr, hfs⟩ :=
    generate_ok_elim config gitignore_content destination fs fs₁ root h
  subst hr
  refine ⟨?_, fun _ => rfl, fun w _ => write_content_normalized w.2⟩
  rw [hfs, foldl_write_eq, foldl_ensure_files]

/-- Concrete emission run: the emitted file list is exactly the write list
mapped through the normalization, and every written content passes the
normalization check. -/
theorem c8_write_normalization_witness :
    ∃ fs₁ root,
      generate_from_config c2cfg "git" ["dest"] ⟨[["dest"]], []⟩ = (fs₁, .ok root) ∧
      (fs₁.files = (⟨[["dest"]], []⟩ : FS).files ++
        (scaffold_writes c2cfg "git" root).map (fun w => (w.1, write_content w.2)) ∧
       (∀ content, write_content content = pyRstrip content ++ "\n") ∧
       ∀ w ∈ scaffold_writes c2cfg "git" root,
         isNormalizedWrite (write_content w.2) = true) := by
  refine ⟨_, _, rfl, ?_⟩
  exact c8_write_normalization c2cfg "git" ["dest"] ⟨[["dest"]], []⟩ _ _ rfl

end Projectify
